import Mathlib

/-!
Verification of the gesture recognition and state-machine engine of the
leapc-python-bindings repository (`api-development/socket_gestures_tracking`),
a shallow embedding of `tracking_lib/controller.py` and
`tracking_lib/canvas.py` into Lean.

Modelling conventions used throughout:
* Python floats are modelled as exact rationals (`ℚ`); float rounding is the
  only idealisation.
* `time.time()` is called several times inside one frame handler; all calls
  within one frame are idealised to a single value `now`, passed explicitly.
* `math.sqrt` produces irrational values, so quantities that the source
  compares only through monotone uses of `sqrt` are represented by their
  squares (each such definition documents its translation).
* Python exceptions are modelled with `Except PyErr`.
* OS side effects (cursor moves, clicks, scrolling, rendering) and printing
  are dropped: with `enable_control=False` they are no-ops in the source, and
  they never touch the recognizer state.
-/

/-- Python exceptions that the embedded code can raise. -/
inductive PyErr where
  /-- `AttributeError`: attribute lookup on an object failed. -/
  | attributeError : PyErr
  /-- `IndexError`: sequence subscript out of range. -/
  | indexError : PyErr
  /-- `raise Exception(msg)` with an explicit message. -/
  | exception : String → PyErr
deriving DecidableEq, Repr

/-- A 3-component vector of exact rationals (Leap positions, normals). -/
structure Vec3 where
  x : ℚ
  y : ℚ
  z : ℚ
deriving DecidableEq, Repr

/-- Componentwise dot product of two 3-vectors. -/
def dot3 (a b : Vec3) : ℚ := a.x * b.x + a.y * b.y + a.z * b.z

/-- Squared magnitude of a 3-vector (`x*x + y*y + z*z` in the source, the
quantity under `math.sqrt` in `normalize` and the distance computations). -/
def magSq (v : Vec3) : ℚ := v.x * v.x + v.y * v.y + v.z * v.z

/-- Componentwise difference. -/
def Vec3.sub (a b : Vec3) : Vec3 := ⟨a.x - b.x, a.y - b.y, a.z - b.z⟩

/-- Componentwise sum. -/
def Vec3.add (a b : Vec3) : Vec3 := ⟨a.x + b.x, a.y + b.y, a.z + b.z⟩

/-- Componentwise division by a scalar. -/
def Vec3.divQ (v : Vec3) (d : ℚ) : Vec3 := ⟨v.x / d, v.y / d, v.z / d⟩

/-- The zero vector, the `(0.0, 0.0, 0.0)` of the source. -/
def Vec3.zero : Vec3 := ⟨0, 0, 0⟩

theorem Vec3.addComm (a b : Vec3) : a.add b = b.add a := by
  simp only [Vec3.add, Vec3.mk.injEq]
  exact ⟨add_comm _ _, add_comm _ _, add_comm _ _⟩

/-- Which of the two per-hand slots of a buffer entry is meant
(the `'left'` / `'right'` string keys of the source). -/
inductive HandSide where
  | left : HandSide
  | right : HandSide
deriving DecidableEq, Repr

/-- One entry of `HandTrackerBuffer.data_buffer`: a timestamp and, per hand,
either the palm position stored for it or `None`. -/
structure BufferEntry where
  timestamp : ℚ
  left : Option Vec3
  right : Option Vec3
deriving DecidableEq, Repr

/-- Dictionary access `entry[hand_type]` of the source. -/
def BufferEntry.get (e : BufferEntry) : HandSide → Option Vec3
  | .left => e.left
  | .right => e.right

/-! ## The per-digit and per-hand sensor sample (`leap` data consumed
by the controller; only the fields the embedded code reads). -/

/-- The joints of one digit that the embedded code reads. -/
structure Digit where
  is_extended : Bool
  metacarpal_prev_joint : Vec3
  proximal_prev_joint : Vec3
  proximal_next_joint : Vec3
  distal_next_joint : Vec3
deriving DecidableEq, Repr

/-- One hand sample of a tracking event. `type_value` is `hand.type.value`
(`0` for a left hand; the source treats any other value as a right hand). -/
structure Hand where
  type_value : ℕ
  palm_position : Vec3
  palm_normal : Vec3
  pinch_strength : ℚ
  grab_strength : ℚ
  thumb : Digit
  index : Digit
  middle : Digit
  ring : Digit
  pinky : Digit
deriving DecidableEq, Repr

/-! ## HandTrackerBuffer (`controller.py`, lines 21-96) -/

/-- The entry built by `HandTrackerBuffer.append`: the loop over `event.hands`
stores the palm position under `"left"` for `type.value == 0` and under
`"right"` otherwise; a later hand of the same type overwrites an earlier one. -/
def entryOfHands (hands : List Hand) (now : ℚ) : BufferEntry :=
  let lr := hands.foldl
    (fun (acc : Option Vec3 × Option Vec3) h =>
      if h.type_value = 0 then (some h.palm_position, acc.2)
      else (acc.1, some h.palm_position))
    (none, none)
  { timestamp := now, left := lr.1, right := lr.2 }

/-- `deque(maxlen=10)` append: the new entry goes to the back and the front
is evicted once the length would exceed 10.  The buffer list is ordered
oldest first, matching iteration order of the Python deque. -/
def bufferAppend (buf : List BufferEntry) (e : BufferEntry) : List BufferEntry :=
  let b := buf ++ [e]
  b.drop (b.length - 10)

/-- The accumulation loop of `calculate_velocity` (lines 67-89): walk the
adjacent pairs of the buffer; skip a pair if either entry misses the hand or
if `dt <= 0`; otherwise add `(next - current) / dt` to the running totals and
count the pair as valid.  Returns (componentwise totals, valid pair count). -/
def velocitySums (side : HandSide) : List BufferEntry → Vec3 × ℕ
  | [] => (Vec3.zero, 0)
  | [_] => (Vec3.zero, 0)
  | c :: n :: rest =>
    let acc := velocitySums side (n :: rest)
    match c.get side, n.get side with
    | some p, some q =>
      let dt := n.timestamp - c.timestamp
      if dt ≤ 0 then acc
      else (acc.1.add ((q.sub p).divQ dt), acc.2 + 1)
    | _, _ => acc

/-- `HandTrackerBuffer.calculate_velocity` (lines 54-96): `(0,0,0)` for a
buffer of fewer than two entries or no valid pair, otherwise the totals
divided by the number of valid pairs. -/
def calculate_velocity (buf : List BufferEntry) (side : HandSide) : Vec3 :=
  if buf.length < 2 then Vec3.zero
  else
    let s := velocitySums side buf
    if s.2 = 0 then Vec3.zero
    else s.1.divQ (s.2 : ℚ)

/-! Spec-side reformulation of `calculate_velocity`, written from the spec
sentence "average of finite differences (Δposition/Δt) over all adjacent
buffer pairs where both entries have that hand present and Δt>0; pairs with
missing data or Δt≤0 are skipped; returns (0,0,0) if fewer than one valid
pair exists", to be compared with the source translation above. -/

/-- The adjacent pairs of the buffer, oldest first. -/
def adjacentPairs (l : List BufferEntry) : List (BufferEntry × BufferEntry) :=
  l.zip l.tail

/-- A pair is valid when both entries have the hand present and Δt > 0. -/
def validPair (side : HandSide) (p : BufferEntry × BufferEntry) : Bool :=
  (p.1.get side).isSome && (p.2.get side).isSome &&
    decide (0 < p.2.timestamp - p.1.timestamp)

/-- The finite difference Δposition/Δt of one valid pair. -/
def pairVelocity (side : HandSide) (p : BufferEntry × BufferEntry) : Vec3 :=
  (((p.2.get side).getD Vec3.zero).sub ((p.1.get side).getD Vec3.zero)).divQ
    (p.2.timestamp - p.1.timestamp)

/-- Modelled from the spec: the average of `pairVelocity` over the valid
adjacent pairs, `(0,0,0)` when no valid pair exists. -/
def calculate_velocity_spec (buf : List BufferEntry) (side : HandSide) : Vec3 :=
  let ps := (adjacentPairs buf).filter (validPair side)
  if ps.length = 0 then Vec3.zero
  else (ps.foldr (fun p acc => (pairVelocity side p).add acc) Vec3.zero).divQ
    (ps.length : ℚ)

theorem velocitySums_eq (side : HandSide) (l : List BufferEntry) :
    velocitySums side l =
      (((adjacentPairs l).filter (validPair side)).foldr
          (fun p acc => (pairVelocity side p).add acc) Vec3.zero,
        ((adjacentPairs l).filter (validPair side)).length) := by
  induction l with
  | nil => simp [velocitySums, adjacentPairs]
  | cons c t ih =>
    cases t with
    | nil => simp [velocitySums, adjacentPairs]
    | cons n rest =>
      have hpairs : adjacentPairs (c :: n :: rest) =
          (c, n) :: adjacentPairs (n :: rest) := by
        simp [adjacentPairs]
      rw [velocitySums, ih, hpairs]
      cases hc : c.get side with
      | none => simp [List.filter, validPair, hc]
      | some p =>
        cases hn : n.get side with
        | none => simp [List.filter, validPair, hc, hn]
        | some q =>
          by_cases hdt : n.timestamp - c.timestamp ≤ 0
          · have : ¬ (0 < n.timestamp - c.timestamp) := not_lt.mpr hdt
            simp [List.filter, validPair, hc, hn, this, hdt]
          · have hlt : 0 < n.timestamp - c.timestamp := lt_of_not_ge hdt
            have hfil : List.filter (validPair side) ((c, n) :: adjacentPairs (n :: rest)) =
                (c, n) :: List.filter (validPair side) (adjacentPairs (n :: rest)) := by
              simp [List.filter, validPair, hc, hn, hlt]
            rw [hfil]
            simp only [List.foldr_cons, List.length_cons, if_neg hdt, Prod.mk.injEq]
            constructor
            · have hpv : pairVelocity side (c, n) = (q.sub p).divQ (n.timestamp - c.timestamp) := by
                simp [pairVelocity, hc, hn]
              rw [hpv]
              exact Vec3.addComm _ _
            · trivial

theorem calculate_velocity_eq_spec (buf : List BufferEntry) (side : HandSide) :
    calculate_velocity buf side = calculate_velocity_spec buf side := by
  unfold calculate_velocity calculate_velocity_spec
  rw [velocitySums_eq]
  by_cases hlen : buf.length < 2
  · have : adjacentPairs buf = [] := by
      cases buf with
      | nil => rfl
      | cons a t =>
        cases t with
        | nil => rfl
        | cons b u => simp at hlen; omega
    simp [hlen, this]
  · simp only [if_neg hlen]

theorem foldr_addVec_all_zero {α : Type} (f : α → Vec3) (l : List α)
    (h : ∀ q ∈ l, f q = Vec3.zero) :
    l.foldr (fun p acc => (f p).add acc) Vec3.zero = Vec3.zero := by
  induction l with
  | nil => rfl
  | cons a t iht =>
    simp only [List.foldr_cons]
    rw [iht (fun q hq => h q (List.mem_cons_of_mem a hq)),
      h a (List.mem_cons_self a t)]
    simp [Vec3.add, Vec3.zero]

theorem calculate_velocity_stationary (buf : List BufferEntry)
    (side : HandSide) (p : Vec3)
    (hstat : ∀ e ∈ buf, e.get side = none ∨ e.get side = some p) :
    calculate_velocity buf side = Vec3.zero := by
  rw [calculate_velocity_eq_spec]
  unfold calculate_velocity_spec
  by_cases hlen : (((adjacentPairs buf).filter (validPair side))).length = 0
  · simp [hlen]
  · simp only [if_neg hlen]
    have hall : ∀ q ∈ (adjacentPairs buf).filter (validPair side),
        pairVelocity side q = Vec3.zero := by
      intro q hq
      have hmem := List.mem_of_mem_filter hq
      have hvalid := List.of_mem_filter hq
      obtain ⟨h1, h2⟩ := List.of_mem_zip hmem
      have h2' : q.2 ∈ buf := List.mem_of_mem_tail h2
      unfold validPair at hvalid
      simp only [Bool.and_eq_true, decide_eq_true_eq, Option.isSome_iff_exists] at hvalid
      have e1 := hstat q.1 h1
      have e2 := hstat q.2 h2'
      have g1 : q.1.get side = some p := by
        rcases e1 with h | h
        · exfalso; rcases hvalid.1.1 with ⟨a, ha⟩; rw [h] at ha; cases ha
        · exact h
      have g2 : q.2.get side = some p := by
        rcases e2 with h | h
        · exfalso; rcases hvalid.1.2 with ⟨a, ha⟩; rw [h] at ha; cases ha
        · exact h
      unfold pairVelocity
      rw [g1, g2]
      simp [Vec3.sub, Vec3.divQ, Vec3.zero]
    rw [foldr_addVec_all_zero _ _ hall]
    simp [Vec3.divQ, Vec3.zero]

/-! ## Canvas (`canvas.py`) -/

/-- Python `int(q)` applied to a float: truncation toward zero. -/
def pyInt (q : ℚ) : ℤ := q.num.tdiv q.den

/-- Python 3 / numpy `round(q)` for a float: round half to even. -/
def pyRound (q : ℚ) : ℤ :=
  let f := ⌊q⌋
  let r := q - f
  if 2 * r < 1 then f
  else if 1 < 2 * r then f + 1
  else if f % 2 = 0 then f else f + 1

/-- `deque(maxlen=n)` append: the new element goes to the back, the front is
evicted once the length would exceed `n`. -/
def dequeAppend {α : Type} (n : ℕ) (l : List α) (a : α) : List α :=
  let b := l ++ [a]
  b.drop (b.length - n)

/-- The mutable state of `Canvas` that the gesture logic touches.  The
rendering fields (`output_image`, `hands_colour`, fonts, tracking mode) are
pure display state and are not modelled. -/
structure CanvasState where
  /-- `self.drawn_points`, a `deque(maxlen=200)` of 3D canvas points. -/
  drawn_points : List (ℤ × ℤ × ℤ)
  /-- `self.is_drawing`. -/
  is_drawing : Bool
  /-- `self.counter`, the drawing rate limiter. -/
  counter : ℕ
deriving DecidableEq, Repr

/-- The methods the `Canvas` class body defines (`canvas.py`).  Used to model
Python attribute lookup on a `Canvas` instance. -/
def canvasMethodNames : List String :=
  ["__init__", "set_tracking_mode", "toggle_hands_format", "begin_drawing",
   "stop_drawing", "clear_gesture_screen", "get_joint_position",
   "render_hands", "_draw_bone", "create_grid_from_points",
   "hausdorff_distance", "rank_reference_gestures", "save_gesture_grid"]

/-- `Canvas.begin_drawing`. -/
def begin_drawing (c : CanvasState) : CanvasState := { c with is_drawing := true }

/-- `Canvas.clear_gesture_screen`: `self.drawn_points.clear()`. -/
def clear_gesture_screen (c : CanvasState) : CanvasState :=
  { c with drawn_points := [] }

/-- `Canvas.get_joint_position` with `enable_z=True` on a non-`None` vector:
`(int(x + screen_size[1]/2), int(-y + screen_size[0]), int(z))` with
`screen_size = [500, 700]`. -/
def get_joint_position (v : Vec3) : ℤ × ℤ × ℤ :=
  (pyInt (v.x + 700 / 2), pyInt (-v.y + 500), pyInt v.z)

/-- The air-drawing capture of `Canvas._draw_bone` (lines 166-172): on the
call for digit 1 (index) and bone 3 (distal), if drawing is active and the
hand's `type.value` equals 1 and the computed `bone_end` tuple is present
(a 3-tuple is always truthy; `get_joint_position` returns `None` only for a
`None` input), bump the rate-limit counter and append `bone_end` to
`drawn_points` on every second eligible call.  The cv2 circle/line rendering
of the bone is pure display and is dropped. -/
def draw_bone (c : CanvasState) (hand : Hand) (digit_idx bone_idx : ℕ)
    (bone_end : Option (ℤ × ℤ × ℤ)) : CanvasState :=
  if digit_idx = 1 ∧ bone_idx = 3 then
    if c.is_drawing ∧ hand.type_value = 1 ∧ bone_end.isSome then
      let cnt := c.counter + 1
      if cnt % 2 = 0 then
        { c with drawn_points := dequeAppend 200 c.drawn_points (bone_end.getD (0, 0, 0)),
                 counter := 0 }
      else { c with counter := cnt }
    else c
  else c

/-- Minimum of a nonempty list of integers (`.min()` of numpy); `0` is never
reached because every caller guards against the empty list. -/
def intMin : List ℤ → ℤ
  | [] => 0
  | h :: t => t.foldl min h

/-- Maximum of a nonempty list of integers (`.max()` of numpy). -/
def intMax : List ℤ → ℤ
  | [] => 0
  | h :: t => t.foldl max h

/-- `Canvas.create_grid_from_points` (lines 174-213) at the default
`grid_size=(100,100)`.  The binary grid is represented by the list of
`(row, column)` coordinates of the cells set to 1 (with possible repeats);
that is exactly the point set `np.argwhere(grid == 1)` that every consumer
of a grid extracts, and the consumers are insensitive to order and repeats.
Bounding box, the aspect-preserving scale `min((w-1)/width, (h-1)/height)`
and the rounding rasterisation follow the source. -/
def create_grid_from_points (points : List (ℤ × ℤ × ℤ)) : List (ℕ × ℕ) :=
  match points with
  | [] => []
  | _ :: _ =>
    let xs := points.map (fun p => p.1)
    let ys := points.map (fun p => p.2.1)
    let x_min := intMin xs
    let x_max := intMax xs
    let y_min := intMin ys
    let y_max := intMax ys
    let width : ℤ := if x_max - x_min = 0 then 1 else x_max - x_min
    let height : ℤ := if y_max - y_min = 0 then 1 else y_max - y_min
    let final_scale : ℚ := min ((100 - 1 : ℚ) / width) ((100 - 1 : ℚ) / height)
    points.filterMap (fun p =>
      let new_x : ℚ := ((p.1 : ℚ) - (x_min : ℚ)) * final_scale
      let new_y : ℚ := ((p.2.1 : ℚ) - (y_min : ℚ)) * final_scale
      let x_p := pyRound new_x
      let y_p := pyRound new_y
      if 0 ≤ y_p ∧ y_p < 100 ∧ 0 ≤ x_p ∧ x_p < 100 then
        some (y_p.toNat, x_p.toNat)
      else none)

/-- Squared Euclidean distance between two grid cells.  The source handles
cell distances only through `max`, `min`, equality with `0.0` and the
threshold comparison against `30.0`, all compatible with the monotone
bijection `d ↦ d²` on nonnegative reals, so distances carry their squares
throughout; thresholds are squared accordingly. -/
def cellDistSq (a b : ℕ × ℕ) : ℚ :=
  ((a.1 : ℚ) - (b.1 : ℚ)) ^ 2 + ((a.2 : ℚ) - (b.2 : ℚ)) ^ 2

/-- `min_{b ∈ B} dist(a,b)` in squared representation (`⊤` for empty `B`,
which no guarded caller reaches). -/
def minDistSq (a : ℕ × ℕ) (B : List (ℕ × ℕ)) : WithTop ℚ :=
  (B.map (fun b => ((cellDistSq a b : ℚ) : WithTop ℚ))).foldr min ⊤

/-- `scipy.spatial.distance.directed_hausdorff(A,B)[0]` in squared
representation: `max_{a ∈ A} min_{b ∈ B} dist(a,b)`.  The fold starts from
`0`, which is sound because all distances are nonnegative; both callers
guard against empty inputs first. -/
def directed_hausdorffSq (A B : List (ℕ × ℕ)) : WithTop ℚ :=
  (A.map (fun a => minDistSq a B)).foldr max 0

/-- `Canvas.hausdorff_distance` (lines 215-229) in squared representation:
`0.0` when both cell sets are empty, `float('inf')` (here `⊤`) when exactly
one is, otherwise the maximum of the two directed distances. -/
def hausdorff_distanceSq (grid1 grid2 : List (ℕ × ℕ)) : WithTop ℚ :=
  if grid1 = [] ∧ grid2 = [] then 0
  else if grid1 = [] ∨ grid2 = [] then ⊤
  else max (directed_hausdorffSq grid1 grid2) (directed_hausdorffSq grid2 grid1)

/-- `Canvas.MATCH_THRESHOLD = 30.0`, squared like the distances. -/
def MATCH_THRESHOLD_Sq : WithTop ℚ := (900 : ℚ)

/-- A store of reference templates: for each name of `REFERENCE_PATHS`, in
dictionary order, either the cell set of the `.npy` grid at its path or
`none` when `os.path.exists` fails for that path. -/
abbrev TemplateStore : Type := List (String × Option (List (ℕ × ℕ)))

/-- Stable insertion of a scored gesture into a list sorted ascending by
score: the new element goes after every element whose score is `≤` its own,
as Python's stable `sorted(..., key=lambda x: x[1])` arranges. -/
def scoreInsert (a : String × WithTop ℚ) :
    List (String × WithTop ℚ) → List (String × WithTop ℚ)
  | [] => [a]
  | b :: t => if b.2 ≤ a.2 then b :: scoreInsert a t else a :: b :: t

/-- Stable sort ascending by score. -/
def sortScores : List (String × WithTop ℚ) → List (String × WithTop ℚ)
  | [] => []
  | a :: t => scoreInsert a (sortScores t)

/-- `Canvas.rank_reference_gestures` (lines 231-249): score every reference
whose file exists (a missing path is skipped with a printed warning),
then sort ascending by distance. -/
def rank_reference_gestures (store : TemplateStore)
    (new_grid : List (ℕ × ℕ)) : List (String × WithTop ℚ) :=
  sortScores (store.filterMap
    (fun ng => ng.2.map (fun g => (ng.1, hausdorff_distanceSq new_grid g))))

/-- `Canvas.stop_drawing` (lines 55-90): disable drawing; when more than 10
points were captured, rasterise them and rank the reference gestures —
`ranking[0]` raises `IndexError` when the ranking is empty; the comparison
of `ranking[0][1]` against `MATCH_THRESHOLD` only selects between printed
reports.  Finally (when no exception interrupted) clear the canvas.
`save_gesture_grid` is called with both flags `False` and `cv2.imshow` is
display-only; both are dropped.  The source sets `is_drawing = False` first;
since nothing in between reads it, the assignment is folded into the
returned states here. -/
def stop_drawing (store : TemplateStore) (c : CanvasState) :
    Except PyErr CanvasState :=
  if 10 < c.drawn_points.length then
    match rank_reference_gestures store (create_grid_from_points c.drawn_points) with
    | [] => .error .indexError
    | _ :: _ => .ok (clear_gesture_screen { c with is_drawing := false })
  else .ok (clear_gesture_screen { c with is_drawing := false })

/-! ## ActionController configuration (`controller.py`, `__init__` and class
level, lines 100-152) -/

/-- `ActionController.SWIPE_THRESHOLD = 650`. -/
def SWIPE_THRESHOLD : ℚ := 650

/-- `self.pinch_threshold = 0.8`. -/
def pinch_threshold : ℚ := 0.8

/-- `self.grab_threshold = 0.9`. -/
def grab_threshold : ℚ := 0.9

/-- `self.hold_threshold = 0.1`. -/
def hold_threshold : ℚ := 0.1

/-- `self.pinch_timeout = 0.1`. -/
def pinch_timeout : ℚ := 0.1

/-- `self.gesture_timeout = 0.3`. -/
def gesture_timeout : ℚ := 0.3

/-- The recurring source snippet
`"palm_away" if (dot_product < 0) else "palm_towards"` followed by the
matching open-palm state assignment. -/
def openPalm (dot_product : ℚ) : String :=
  if dot_product < 0 then "open-palm-away" else "open-palm-towards"

/-! ## Thumb classification (`controller.py`, lines 446-506) -/

/-- `get_thumb_direction` composed with `classify_thumb_direction`
(lines 446-482), square-free.  The source normalizes
`d = distal.next_joint - metacarpal.prev_joint` (`normalize` returns the
zero vector when `|d| < 1e-8`) and compares the y component of the unit
vector with `±0.5`.  For `|d| ≥ 1e-8`, `d.y/|d| > 0.5` is equivalent to
`0 < d.y ∧ |d|² < 4·d.y²` and `d.y/|d| < -0.5` to `d.y < 0 ∧ |d|² < 4·d.y²`;
for `|d| < 1e-8` (i.e. `|d|² < 1e-16`) the zero vector's y component `0`
matches neither bound. -/
def classify_thumb_direction (thumb : Digit) : Option String :=
  let d := thumb.distal_next_joint.sub thumb.metacarpal_prev_joint
  if magSq d < 1 / 10 ^ 16 then none
  else if 0 < d.y ∧ magSq d < 4 * d.y ^ 2 then some "thumb-up"
  else if d.y < 0 ∧ magSq d < 4 * d.y ^ 2 then some "thumb-down"
  else none

/-- `ActionController.check_thumb_gesture` (lines 484-506). -/
def check_thumb_gesture (hand : Hand) : Option String :=
  if hand.thumb.is_extended ∧
      ¬(hand.index.is_extended ∨ hand.middle.is_extended ∨
        hand.ring.is_extended ∨ hand.pinky.is_extended) then
    match classify_thumb_direction hand.thumb with
    | some "thumb-up" => some "thumbs_up"
    | some "thumb-down" => some "thumbs_down"
    | _ => none
  else none

/-! ## Finger-cross detection (`controller.py`, lines 508-569) -/

/-- The dictionary `{"overlapping": ..., "crossed": ...}` returned by
`check_finger_cross`. -/
structure FingerCrossStatus where
  overlapping : Bool
  crossed : Bool
deriving DecidableEq, Repr

/-- `ActionController.check_finger_cross` with the default thresholds
`overlap_threshold=40.0`, `orthogonal_threshold=0.35`.  More than two hands
raise `Exception("Too many hands detected! ...")`; with either hand missing
the result is all-false.  Square-free translations: the overlap test
`dist < 40.0` becomes `dist² < 1600`; the orthogonality test
`|dot(û,v̂)| < 0.35` becomes `dot(u,v)²·400 < 49·|u|²·|v|²` when neither
direction is shorter than `1e-8` (else `normalize` zeroes it, the dot
product is `0`, and `|0| < 0.35` holds). -/
def check_finger_cross (hands : List Hand) : Except PyErr FingerCrossStatus :=
  if 2 < hands.length then
    .error (.exception "Too many hands detected! Limit detection to two.")
  else
    let lr := hands.foldl
      (fun (acc : Option Hand × Option Hand) h =>
        if h.type_value = 0 then (some h, acc.2) else (acc.1, some h))
      (none, none)
    match lr.1, lr.2 with
    | some left_hand, some right_hand =>
      let distSq :=
        magSq (left_hand.index.proximal_next_joint.sub
          right_hand.index.proximal_next_joint)
      let are_overlapping := decide (distSq < 1600)
      let left_dir := left_hand.index.distal_next_joint.sub
        left_hand.index.proximal_prev_joint
      let right_dir := right_hand.index.distal_next_joint.sub
        right_hand.index.proximal_prev_joint
      let are_crossed :=
        if magSq left_dir < 1 / 10 ^ 16 ∨ magSq right_dir < 1 / 10 ^ 16 then
          true
        else
          decide ((dot3 left_dir right_dir) ^ 2 * 400 <
            49 * magSq left_dir * magSq right_dir)
      .ok ⟨are_overlapping, are_crossed⟩
    | _, _ => .ok ⟨false, false⟩

/-! ## The per-hand state machines (`controller.py`, lines 571-905).

`MachineState` collects exactly the controller attributes that
`update_right_hand_state`, `update_left_hand_state` and
`_check_for_pinch_swipe` read or write; the attributes touched only by
`active_handler` itself (buffer, velocities, zoom state, gesture timeout
clock) live in `ControllerState` further below.  The embedding fixes
`enable_control=False` (the construction default), under which
`move_cursor`, `trigger_click_event`, `press_down`, `press_up` and
`scroll_with_displacement` return without doing anything — in particular
`scroll_with_displacement` returns before updating `last_scroll_y`. -/

structure MachineState where
  hand_state_left : String
  hand_state_right : String
  hand_press_time_left : ℚ
  hand_press_time_right : ℚ
  last_scroll_y : ℚ
  last_pinch_time : ℚ
  pinch_timer : ℚ
  complex_state : String
  complex_gesture_timestamp : ℚ
  canvas : CanvasState
deriving DecidableEq, Repr

/-- `ActionController._check_for_pinch_swipe` (lines 396-419): within
`pinch_timeout` of the last pinch, test the right-hand velocity against
`SWIPE_THRESHOLD` — `vx` before `vy` — and timestamp the gesture. -/
def check_for_pinch_swipe (right_hand_velocity : Vec3) (m : MachineState)
    (now : ℚ) : MachineState :=
  if now - m.last_pinch_time ≤ pinch_timeout then
    let vx := right_hand_velocity.x
    let vy := right_hand_velocity.y
    if SWIPE_THRESHOLD < |vx| ∨ SWIPE_THRESHOLD < |vy| then
      let s :=
        if SWIPE_THRESHOLD < vx then "swipe-right"
        else if vx < -SWIPE_THRESHOLD then "swipe-left"
        else if SWIPE_THRESHOLD < vy then "swipe-up"
        else if vy < -SWIPE_THRESHOLD then "swipe-down"
        else m.complex_state
      { m with complex_state := s, complex_gesture_timestamp := now }
    else m
  else m

/-- The gesture classification shared by both update methods (lines
584-599 / 757-769): pinch wins when `pinch_strength ≥ pinch_threshold`,
`pinch_strength > grab_strength` and the index finger is not extended;
otherwise a grab when `grab_strength ≥ grab_threshold`, split by palm
orientation. -/
def classify_gesture (grab_strength pinch_strength dot_product : ℚ)
    (curr_hand : Hand) : Option String :=
  if pinch_threshold ≤ pinch_strength ∧ grab_strength < pinch_strength ∧
      ¬ curr_hand.index.is_extended then some "pinch"
  else if grab_threshold ≤ grab_strength then
    (if dot_product < 0 then some "grab_palm_away" else some "grab_palm_towards")
  else none

/-- The thumbs overlay closing `update_right_hand_state` (lines 724-742):
`if self.hand_state["right"]:` is always true (every state string is
nonempty), and `curr_hand` is the hand just processed, never `None` here. -/
def thumb_overlay_right (m1 : MachineState) (dot_product : ℚ)
    (curr_hand : Hand) : MachineState :=
  match check_thumb_gesture curr_hand with
  | some g =>
    if m1.hand_state_right ≠ g then { m1 with hand_state_right := g } else m1
  | none =>
    if m1.hand_state_right = "thumbs_up" ∨ m1.hand_state_right = "thumbs_down" then
      { m1 with hand_state_right := openPalm dot_product }
    else m1

/-- The identical thumbs overlay closing `update_left_hand_state`
(lines 887-904). -/
def thumb_overlay_left (m1 : MachineState) (dot_product : ℚ)
    (curr_hand : Hand) : MachineState :=
  match check_thumb_gesture curr_hand with
  | some g =>
    if m1.hand_state_left ≠ g then { m1 with hand_state_left := g } else m1
  | none =>
    if m1.hand_state_left = "thumbs_up" ∨ m1.hand_state_left = "thumbs_down" then
      { m1 with hand_state_left := openPalm dot_product }
    else m1

/-- The state-transition chain of `update_right_hand_state` (lines 601-718),
before the thumbs overlay.  OS side effects (`press_down`, `press_up`,
`trigger_click_event`, scrolling) are no-ops with `enable_control=False`. -/
def update_right_core (right_hand_velocity : Vec3) (m : MachineState)
    (grab_strength pinch_strength palm_y dot_product : ℚ) (curr_hand : Hand)
    (now : ℚ) : MachineState :=
  let gesture := classify_gesture grab_strength pinch_strength dot_product curr_hand
  let cs := m.hand_state_right
  if cs = "idle" ∨ cs = "open-palm-away" ∨ cs = "open-palm-towards" then
    if gesture = some "pinch" then
      { m with hand_state_right := "pinch-pressing", hand_press_time_right := now }
    else if gesture = some "grab_palm_away" then
      { m with hand_state_right := "grab-away-pressing",
               hand_press_time_right := now, last_scroll_y := palm_y }
    else if gesture = some "grab_palm_towards" then
      { m with hand_state_right := "grab-towards-pressing",
               hand_press_time_right := now, last_scroll_y := palm_y }
    else { m with hand_state_right := openPalm dot_product }
  else if cs = "pinch-pressing" then
    if gesture = some "pinch" then
      if hold_threshold ≤ now - m.hand_press_time_right then
        { m with hand_state_right := "pinch-holding" }
      else m
    else { m with hand_state_right := openPalm dot_product }
  else if cs = "pinch-holding" then
    if gesture = some "pinch" then
      check_for_pinch_swipe right_hand_velocity
        { m with last_pinch_time := now } now
    else { m with hand_state_right := openPalm dot_product, pinch_timer := now }
  else if cs = "grab-away-pressing" then
    if gesture = some "grab_palm_away" then
      if hold_threshold ≤ now - m.hand_press_time_right then
        { m with hand_state_right := "grab-away-holding" }
      else m
    else { m with hand_state_right := openPalm dot_product }
  else if cs = "grab-away-holding" then
    if gesture = some "grab_palm_away" then m
    else { m with hand_state_right := openPalm dot_product }
  else if cs = "grab-towards-pressing" then
    if gesture = some "grab_palm_towards" then
      if hold_threshold ≤ now - m.hand_press_time_right then
        { m with hand_state_right := "grab-towards-holding" }
      else m
    else { m with hand_state_right := openPalm dot_product }
  else if cs = "grab-towards-holding" then
    if gesture = some "grab_palm_towards" then m
    else { m with hand_state_right := openPalm dot_product }
  else { m with hand_state_right := openPalm dot_product }

/-- `ActionController.update_right_hand_state` (lines 571-742). -/
def update_right_hand_state (right_hand_velocity : Vec3) (m : MachineState)
    (grab_strength pinch_strength palm_y dot_product : ℚ) (curr_hand : Hand)
    (now : ℚ) : MachineState :=
  thumb_overlay_right
    (update_right_core right_hand_velocity m grab_strength pinch_strength
      palm_y dot_product curr_hand now)
    dot_product curr_hand

/-- The state-transition chain of `update_left_hand_state` (lines 771-885),
before the thumbs overlay.  The left machine drives the canvas:
`begin_drawing` on entering pinch-pressing, `stop_drawing` when a pinch
ends (which can raise, aborting the frame), `clear_gesture_screen` on grab
promotion.  Unlike the right machine, the grab-pressing entries do not
record `last_scroll_y`. -/
def update_left_core (store : TemplateStore) (m : MachineState)
    (grab_strength pinch_strength palm_y dot_product : ℚ) (curr_hand : Hand)
    (now : ℚ) : Except PyErr MachineState :=
  let gesture := classify_gesture grab_strength pinch_strength dot_product curr_hand
  let cs := m.hand_state_left
  if cs = "idle" ∨ cs = "open-palm-away" ∨ cs = "open-palm-towards" then
    if gesture = some "pinch" then
      .ok { m with hand_state_left := "pinch-pressing",
                   hand_press_time_left := now,
                   canvas := begin_drawing m.canvas }
    else if gesture = some "grab_palm_away" then
      .ok { m with hand_state_left := "grab-away-pressing",
                   hand_press_time_left := now }
    else if gesture = some "grab_palm_towards" then
      .ok { m with hand_state_left := "grab-towards-pressing",
                   hand_press_time_left := now }
    else .ok { m with hand_state_left := openPalm dot_product }
  else if cs = "pinch-pressing" then
    if gesture = some "pinch" then
      .ok (if hold_threshold ≤ now - m.hand_press_time_left then
        { m with hand_state_left := "pinch-holding" }
      else m)
    else
      match stop_drawing store m.canvas with
      | .error e => .error e
      | .ok c1 =>
        .ok { m with canvas := c1, hand_state_left := openPalm dot_product }
  else if cs = "pinch-holding" then
    if gesture = some "pinch" then .ok m
    else
      match stop_drawing store m.canvas with
      | .error e => .error e
      | .ok c1 =>
        .ok { m with canvas := c1, hand_state_left := openPalm dot_product }
  else if cs = "grab-away-pressing" then
    if gesture = some "grab_palm_away" then
      .ok (if hold_threshold ≤ now - m.hand_press_time_left then
        { m with hand_state_left := "grab-away-holding",
                 canvas := clear_gesture_screen m.canvas }
      else m)
    else .ok { m with hand_state_left := openPalm dot_product }
  else if cs = "grab-away-holding" then
    if gesture = some "grab_palm_away" then .ok m
    else .ok { m with hand_state_left := openPalm dot_product }
  else if cs = "grab-towards-pressing" then
    if gesture = some "grab_palm_towards" then
      .ok (if hold_threshold ≤ now - m.hand_press_time_left then
        { m with hand_state_left := "grab-towards-holding",
                 canvas := clear_gesture_screen m.canvas }
      else m)
    else .ok { m with hand_state_left := openPalm dot_product }
  else if cs = "grab-towards-holding" then
    if gesture = some "grab_palm_towards" then .ok m
    else .ok { m with hand_state_left := openPalm dot_product }
  else .ok { m with hand_state_left := openPalm dot_product }

/-- `ActionController.update_left_hand_state` (lines 748-904). -/
def update_left_hand_state (store : TemplateStore) (m : MachineState)
    (grab_strength pinch_strength palm_y dot_product : ℚ) (curr_hand : Hand)
    (now : ℚ) : Except PyErr MachineState :=
  match update_left_core store m grab_strength pinch_strength palm_y
      dot_product curr_hand now with
  | .error e => .error e
  | .ok m1 => .ok (thumb_overlay_left m1 dot_product curr_hand)

/-! ## The frame handler (`controller.py`, `active_handler`, lines 295-394) -/

/-- The controller attributes around the per-hand machines: the frame
buffer, the cached velocities, the gesture-timeout clock and the zoom
state.  `zoom_baseline_distance` is `None` initially (in the source the
attribute is first assigned inside `active_handler`; every path that reads
it has run the assigning else-branch on an earlier frame, since two hands
cannot already be grab-holding on the very first frame). -/
structure ControllerState where
  machine : MachineState
  data_buffer : List BufferEntry
  right_hand_velocity : Vec3
  left_hand_velocity : Vec3
  last_gesture_time : ℚ
  zoom_baseline_distance : Option ℚ
  zoom_multiplier : ℚ
deriving DecidableEq, Repr

/-- `ActionController.distance_between_hands` (lines 421-442) up to the
final `math.sqrt`: `none` when the buffer is empty or the latest entry
misses a hand, otherwise the squared 3D distance between the stored palm
positions.  The distance itself is the generally irrational square root of
this value; `active_handler` receives it as the explicit parameter `dist`,
constrained in theorems via `distanceMatches`. -/
def distance_between_hands_sq (buf : List BufferEntry) : Option ℚ :=
  match buf.getLast? with
  | none => none
  | some latest =>
    match latest.left, latest.right with
    | some lc, some rc => some (magSq (rc.sub lc))
    | _, _ => none

/-- `dist` is the square root of the value of `distance_between_hands_sq`:
both absent, or `dist = some d` with `d ≥ 0` and `d² = distSq`. -/
def distanceMatches (dist distSq : Option ℚ) : Prop :=
  match dist, distSq with
  | none, none => True
  | some d, some q => 0 ≤ d ∧ d ^ 2 = q
  | _, _ => False

/-- One iteration of the `for hand in event.hands` loop (lines 304-320):
route the hand to its update method (`move_cursor` for the right hand is an
OS no-op with `enable_control=False`); `self.curr_hand` is the hand being
processed.  `dot_product` is `np.dot(palm_normal, [0,0,1])`. -/
def process_hand (store : TemplateStore) (right_hand_velocity : Vec3)
    (now : ℚ) (acc : Except PyErr MachineState) (hand : Hand) :
    Except PyErr MachineState :=
  match acc with
  | .error e => .error e
  | .ok m =>
    let dot_product := dot3 hand.palm_normal ⟨0, 0, 1⟩
    if hand.type_value = 0 then
      update_left_hand_state store m hand.grab_strength hand.pinch_strength
        hand.palm_position.y dot_product hand now
    else
      .ok (update_right_hand_state right_hand_velocity m hand.grab_strength
        hand.pinch_strength hand.palm_position.y dot_product hand now)

/-- The result fields of the complex-gesture merge section of
`active_handler` (lines 322-394): the machine state plus the three
controller attributes the section owns. -/
structure MergeResult where
  machine : MachineState
  last_gesture_time : ℚ
  zoom_baseline_distance : Option ℚ
  zoom_multiplier : ℚ
deriving DecidableEq, Repr

/-- The complex-gesture merge section of `active_handler` (lines 325-394),
running after the per-hand updates and the module-level
`_check_for_pinch_swipe`: finger-cross override, the drawn-gesture result
(line 334, see `active_handler` below), the right-hand-absent reset, the
gesture timeout, and the zoom logic.  `m1` is the machine state after the
per-hand updates and swipe check; `lg`, `zb`, `zm` are the incoming
`last_gesture_time`, `zoom_baseline_distance` and `zoom_multiplier`. -/
def complex_merge (hands : List Hand) (f : FingerCrossStatus)
    (recognized : Option String) (dist : Option ℚ) (m1 : MachineState)
    (lg : ℚ) (zb : Option ℚ) (zm : ℚ) (now : ℚ) : MergeResult :=
  let m2 := if f.overlapping ∧ f.crossed then
      { m1 with complex_state := "finger-cross" }
    else m1
  let recog : MachineState × ℚ :=
    match recognized with
    | some g =>
      ({ m2 with complex_state := g, complex_gesture_timestamp := now }, now)
    | none => (m2, lg)
  let m3 := recog.1
  let m4 :=
    if hands.all (fun h => h.type_value == 0) ∧ m3.complex_state ≠ "idle"
    then { m3 with complex_state := "idle", complex_gesture_timestamp := now }
    else m3
  let tick : MachineState × ℚ :=
    if gesture_timeout < now - recog.2 then
      ({ m4 with complex_state := "idle" }, now)
    else (m4, recog.2)
  let m5 := tick.1
  let left_is_grabbing := m5.hand_state_left = "grab-away-holding" ∨
    m5.hand_state_left = "grab-towards-holding"
  let right_is_grabbing := m5.hand_state_right = "grab-away-holding" ∨
    m5.hand_state_right = "grab-towards-holding"
  if left_is_grabbing ∧ right_is_grabbing then
    match dist with
    | some d =>
      match zb with
      | none =>
        ⟨{ m5 with complex_state := "zoom", complex_gesture_timestamp := now },
         tick.2, some d, 1⟩
      | some b =>
        if 1 / 10 ^ 6 < b then
          ⟨if m5.complex_state ≠ "zoom" then
              { m5 with complex_state := "zoom",
                        complex_gesture_timestamp := now }
            else m5,
           tick.2, some b, d / b⟩
        else ⟨m5, tick.2, some b, zm⟩
    | none => ⟨m5, tick.2, zb, zm⟩
  else
    ⟨if m5.complex_state = "zoom" then
        { m5 with complex_state := "idle", complex_gesture_timestamp := now }
      else m5,
     tick.2, none, 1⟩

/-- `ActionController.active_handler` (lines 295-394).

Two parameters stand in for values produced outside the mutable state:

* `recognized_gesture` — the result of
  `self.canvas.get_and_forget_drawn_gesture()` (line 334).  The `Canvas`
  class defines no method of that name (see `canvasMethodNames`), so the
  faithful translation `active_handler_as_written` below raises there on
  every frame.  Modelled from the spec: the missing
  `Canvas.get_and_forget_drawn_gesture` is taken to yield "the most recent
  non-empty result from ShapeRecognizer" or `none`, and this variant
  receives that value as an input.
* `dist` — the value `self.distance_between_hands()` (line 368); its
  `math.sqrt` is irrational in general, so theorems pass it explicitly,
  tied to the state by `distanceMatches dist (distance_between_hands_sq …)`.
-/
def active_handler (store : TemplateStore) (s : ControllerState)
    (hands : List Hand) (now : ℚ) (recognized_gesture : Option String)
    (dist : Option ℚ) : Except PyErr ControllerState :=
  match List.foldl (process_hand store
      (calculate_velocity (bufferAppend s.data_buffer (entryOfHands hands now))
        HandSide.right) now) (Except.ok s.machine) hands with
  | .error e => .error e
  | .ok m0 =>
    match check_finger_cross hands with
    | .error e => .error e
    | .ok f =>
      let r := complex_merge hands f recognized_gesture dist
        (check_for_pinch_swipe
          (calculate_velocity
            (bufferAppend s.data_buffer (entryOfHands hands now))
            HandSide.right) m0 now)
        s.last_gesture_time s.zoom_baseline_distance s.zoom_multiplier now
      .ok ⟨r.machine,
           bufferAppend s.data_buffer (entryOfHands hands now),
           calculate_velocity
             (bufferAppend s.data_buffer (entryOfHands hands now))
             HandSide.right,
           calculate_velocity
             (bufferAppend s.data_buffer (entryOfHands hands now))
             HandSide.left,
           r.last_gesture_time, r.zoom_baseline_distance, r.zoom_multiplier⟩

/-- Attribute lookup `self.canvas.get_and_forget_drawn_gesture` (line 334):
the `Canvas` class body defines no such method, so the lookup raises
`AttributeError`. -/
def get_and_forget_drawn_gesture_lookup : Except PyErr (Option String) :=
  if "get_and_forget_drawn_gesture" ∈ canvasMethodNames then .ok none
  else .error .attributeError

/-- `ActionController.active_handler` exactly as written: the stages before
line 334 (the hand loop and `check_finger_cross`) can raise their own
exceptions; any frame that gets past them hits the failing attribute lookup
of line 334.  Were the lookup to succeed, the frame would continue as
`active_handler` with its result. -/
def active_handler_as_written (store : TemplateStore) (s : ControllerState)
    (hands : List Hand) (now : ℚ) (dist : Option ℚ) :
    Except PyErr ControllerState :=
  match List.foldl (process_hand store
      (calculate_velocity (bufferAppend s.data_buffer (entryOfHands hands now))
        HandSide.right) now) (Except.ok s.machine) hands with
  | .error e => .error e
  | .ok _ =>
    match check_finger_cross hands with
    | .error e => .error e
    | .ok _ =>
      match get_and_forget_drawn_gesture_lookup with
      | .error e => .error e
      | .ok r => active_handler store s hands now r dist

/-! ## Concrete fixtures used by witnesses and counterexamples -/

/-- A digit with no extension and all joints at the origin. -/
def testDigit : Digit :=
  { is_extended := false, metacarpal_prev_joint := ⟨0, 0, 0⟩,
    proximal_prev_joint := ⟨0, 0, 0⟩, proximal_next_joint := ⟨0, 0, 0⟩,
    distal_next_joint := ⟨0, 0, 0⟩ }

/-- A neutral left-hand sample. -/
def testHandL : Hand :=
  { type_value := 0, palm_position := ⟨0, 0, 0⟩, palm_normal := ⟨0, 0, -1⟩,
    pinch_strength := 0, grab_strength := 0, thumb := testDigit,
    index := testDigit, middle := testDigit, ring := testDigit,
    pinky := testDigit }

/-- A neutral right-hand sample. -/
def testHandR : Hand := { testHandL with type_value := 1 }

/-- The canvas state right after `Canvas.__init__`. -/
def canvas0 : CanvasState := { drawn_points := [], is_drawing := false, counter := 0 }

/-- A machine state with everything idle and all clocks at zero. -/
def mA : MachineState :=
  { hand_state_left := "idle", hand_state_right := "idle",
    hand_press_time_left := 0, hand_press_time_right := 0,
    last_scroll_y := 0, last_pinch_time := 0, pinch_timer := 0,
    complex_state := "idle", complex_gesture_timestamp := 0, canvas := canvas0 }

/-! ## C10 — finger-cross arity handling -/

/-- C10: `check_finger_cross`, invoked unconditionally on every active
frame, raises `Exception` for more than two hands — so such a frame never
completes — and returns `overlapping = crossed = False` without error for
zero or one hand. -/
theorem c10_finger_cross_arity :
    (∀ hands : List Hand, 2 < hands.length →
      check_finger_cross hands =
        .error (.exception "Too many hands detected! Limit detection to two.")) ∧
    (∀ hands : List Hand, hands.length ≤ 1 →
      check_finger_cross hands = .ok ⟨false, false⟩) ∧
    (∀ store s hands now dist, 2 < hands.length →
      ∃ e, active_handler_as_written store s hands now dist = .error e) := by
  refine ⟨fun hands h => ?_, fun hands h => ?_, fun store s hands now dist h => ?_⟩
  · unfold check_finger_cross
    rw [if_pos h]
  · cases hands with
    | nil => rfl
    | cons a t =>
      cases t with
      | nil =>
        unfold check_finger_cross
        rw [if_neg (by norm_num)]
        by_cases ha : a.type_value = 0 <;> simp [List.foldl, ha]
      | cons b u => simp at h
  · have hfc : check_finger_cross hands =
        .error (.exception "Too many hands detected! Limit detection to two.") := by
      unfold check_finger_cross
      rw [if_pos h]
    unfold active_handler_as_written
    cases hfold : List.foldl (process_hand store
        (calculate_velocity (bufferAppend s.data_buffer (entryOfHands hands now))
          HandSide.right) now) (Except.ok s.machine) hands with
    | error e => exact ⟨e, rfl⟩
    | ok m0 =>
      rw [hfc]
      exact ⟨_, rfl⟩

/-- Witness for `c10_finger_cross_arity` at concrete inputs: three hands
raise, the empty hand list yields the all-false status, and a three-hand
frame never completes. -/
theorem c10_witness :
    check_finger_cross [testHandL, testHandL, testHandR] =
      .error (.exception "Too many hands detected! Limit detection to two.") ∧
    check_finger_cross [] = .ok ⟨false, false⟩ ∧
    ∃ e, active_handler_as_written [] ⟨mA, [], Vec3.zero, Vec3.zero, 0, none, 1⟩
      [testHandL, testHandL, testHandR] 0 none = .error e :=
  ⟨c10_finger_cross_arity.1 _ (by decide),
   c10_finger_cross_arity.2.1 [] (by decide),
   c10_finger_cross_arity.2.2 [] _ _ 0 none (by decide)⟩

/-! ## C7 — Hausdorff distance: symmetry and self-distance -/

theorem foldr_min_le {l : List (WithTop ℚ)} {b : WithTop ℚ} (hb : b ∈ l) :
    l.foldr min ⊤ ≤ b := by
  induction l with
  | nil => cases hb
  | cons c t ih =>
    rcases List.mem_cons.mp hb with h | h
    · simpa [h] using min_le_left c (t.foldr min ⊤)
    · exact le_trans (min_le_right c (t.foldr min ⊤)) (ih h)

theorem foldr_min_nonneg {l : List (WithTop ℚ)} (h : ∀ x ∈ l, 0 ≤ x) :
    0 ≤ l.foldr min ⊤ := by
  induction l with
  | nil => exact le_top
  | cons c t ih =>
    exact le_min (h c (List.mem_cons_self c t))
      (ih (fun x hx => h x (List.mem_cons_of_mem c hx)))

theorem foldr_max_all_zero {l : List (WithTop ℚ)} (h : ∀ x ∈ l, x = 0) :
    l.foldr max 0 = 0 := by
  induction l with
  | nil => rfl
  | cons c t ih =>
    simp only [List.foldr_cons]
    rw [h c (List.mem_cons_self c t),
      ih (fun x hx => h x (List.mem_cons_of_mem c hx)), max_self]

theorem cellDistSq_self (a : ℕ × ℕ) : cellDistSq a a = 0 := by
  simp [cellDistSq]

theorem cellDistSq_nonneg (a b : ℕ × ℕ) : 0 ≤ cellDistSq a b := by
  unfold cellDistSq
  positivity

theorem minDistSq_self_zero {a : ℕ × ℕ} {g : List (ℕ × ℕ)} (ha : a ∈ g) :
    minDistSq a g = 0 := by
  unfold minDistSq
  refine le_antisymm ?_ ?_
  · have hmem : ((cellDistSq a a : ℚ) : WithTop ℚ) ∈
        g.map (fun b => ((cellDistSq a b : ℚ) : WithTop ℚ)) :=
      List.mem_map.mpr ⟨a, ha, rfl⟩
    have := foldr_min_le hmem
    rwa [cellDistSq_self, WithTop.coe_zero] at this
  · refine foldr_min_nonneg ?_
    intro x hx
    rcases List.mem_map.mp hx with ⟨b, _, rfl⟩
    rw [← WithTop.coe_zero, WithTop.coe_le_coe]
    exact cellDistSq_nonneg a b

theorem directed_hausdorffSq_self (g : List (ℕ × ℕ)) :
    directed_hausdorffSq g g = 0 := by
  unfold directed_hausdorffSq
  refine foldr_max_all_zero ?_
  intro x hx
  rcases List.mem_map.mp hx with ⟨a, ha, rfl⟩
  exact minDistSq_self_zero ha

/-- C7: the bidirectional Hausdorff distance of `Canvas.hausdorff_distance`
(in squared representation) is symmetric — including the empty cases: both
empty gives `0.0`, exactly one empty gives infinity (`⊤`) — and every grid
with at least one occupied cell has self-distance `0.0`, which is below
`MATCH_THRESHOLD = 30.0` (`900` squared). -/
theorem c7_hausdorff_symmetric_and_self :
    (∀ g1 g2 : List (ℕ × ℕ),
      hausdorff_distanceSq g1 g2 = hausdorff_distanceSq g2 g1) ∧
    (∀ g : List (ℕ × ℕ), g ≠ [] →
      hausdorff_distanceSq g g = 0 ∧
      hausdorff_distanceSq g g < MATCH_THRESHOLD_Sq) := by
  constructor
  · intro g1 g2
    unfold hausdorff_distanceSq
    by_cases h1 : g1 = [] <;> by_cases h2 : g2 = [] <;>
      simp [h1, h2, max_comm]
  · intro g hg
    have hzero : hausdorff_distanceSq g g = 0 := by
      unfold hausdorff_distanceSq
      rw [if_neg (by simp [hg]), if_neg (by simp [hg]),
        directed_hausdorffSq_self, max_self]
    refine ⟨hzero, ?_⟩
    rw [hzero]
    unfold MATCH_THRESHOLD_Sq
    rw [← WithTop.coe_zero, WithTop.coe_lt_coe]
    norm_num

/-- Witness for `c7_hausdorff_symmetric_and_self`: the symmetry applied to
two small concrete grids, and the self-distance facts at a one-cell grid. -/
theorem c7_witness :
    hausdorff_distanceSq [(1, 2)] [(3, 4), (5, 6)] =
      hausdorff_distanceSq [(3, 4), (5, 6)] [(1, 2)] ∧
    (hausdorff_distanceSq [(1, 2)] [(1, 2)] = 0 ∧
     hausdorff_distanceSq [(1, 2)] [(1, 2)] < MATCH_THRESHOLD_Sq) :=
  ⟨c7_hausdorff_symmetric_and_self.1 _ _,
   c7_hausdorff_symmetric_and_self.2 [(1, 2)] (by decide)⟩

/-! ## C2 — swipe axis priority -/

/-- C2 (amended): within `pinch_timeout` of the last pinch,
`_check_for_pinch_swipe` checks the HORIZONTAL axis first: `vx` beyond
`SWIPE_THRESHOLD` yields swipe-right/left regardless of `vy`; only when
`|vx|` does not exceed the threshold does `vy` decide swipe-up/down. -/
theorem c2_swipe_horizontal_first (v : Vec3) (m : MachineState) (now : ℚ)
    (hwin : now - m.last_pinch_time ≤ pinch_timeout) :
    (SWIPE_THRESHOLD < v.x →
      (check_for_pinch_swipe v m now).complex_state = "swipe-right") ∧
    (v.x < -SWIPE_THRESHOLD →
      (check_for_pinch_swipe v m now).complex_state = "swipe-left") ∧
    (|v.x| ≤ SWIPE_THRESHOLD → SWIPE_THRESHOLD < v.y →
      (check_for_pinch_swipe v m now).complex_state = "swipe-up") ∧
    (|v.x| ≤ SWIPE_THRESHOLD → v.y < -SWIPE_THRESHOLD →
      (check_for_pinch_swipe v m now).complex_state = "swipe-down") := by
  unfold check_for_pinch_swipe
  rw [if_pos hwin]
  refine ⟨fun hx => ?_, fun hx => ?_, fun hx hy => ?_, fun hx hy => ?_⟩
  · have habs : SWIPE_THRESHOLD < |v.x| := lt_of_lt_of_le hx (le_abs_self v.x)
    rw [if_pos (Or.inl habs), if_pos hx]
  · have hT : (0 : ℚ) < SWIPE_THRESHOLD := by norm_num [SWIPE_THRESHOLD]
    have habs : SWIPE_THRESHOLD < |v.x| := by
      rw [abs_of_neg (by linarith)]
      linarith
    have hnx : ¬ SWIPE_THRESHOLD < v.x := by
      intro hcontra
      linarith
    rw [if_pos (Or.inl habs), if_neg hnx, if_pos hx]
  · have habs : SWIPE_THRESHOLD < |v.y| := lt_of_lt_of_le hy (le_abs_self v.y)
    have hnx1 : ¬ SWIPE_THRESHOLD < v.x := not_lt.mpr (le_trans (le_abs_self v.x) hx)
    have hnx2 : ¬ v.x < -SWIPE_THRESHOLD := by
      intro h
      have := neg_abs_le v.x
      linarith [abs_le.mp hx]
    rw [if_pos (Or.inr habs), if_neg hnx1, if_neg hnx2, if_pos hy]
  · have hT0 : (0 : ℚ) < SWIPE_THRESHOLD := by norm_num [SWIPE_THRESHOLD]
    have habs : SWIPE_THRESHOLD < |v.y| := by
      rw [abs_of_neg (by linarith)]
      linarith
    have hnx1 : ¬ SWIPE_THRESHOLD < v.x := not_lt.mpr (le_trans (le_abs_self v.x) hx)
    have hnx2 : ¬ v.x < -SWIPE_THRESHOLD := by
      intro h
      linarith [abs_le.mp hx]
    have hny : ¬ SWIPE_THRESHOLD < v.y := by
      have hT : (0 : ℚ) < SWIPE_THRESHOLD := by norm_num [SWIPE_THRESHOLD]
      intro hcontra
      linarith
    rw [if_pos (Or.inr habs), if_neg hnx1, if_neg hnx2, if_neg hny, if_pos hy]

/-- Counterexample to C2 as stated: with the right hand's smoothed velocity
`(700, 700, 0)` — both `|vx|` and `|vy|` above `SWIPE_THRESHOLD = 650` —
within the pinch window, the resulting state is `swipe-right`, not the
`SwipeUp` the claim requires for positive `vy`. -/
theorem c2_counterexample :
    (0 : ℚ) - mA.last_pinch_time ≤ pinch_timeout ∧
    SWIPE_THRESHOLD < (700 : ℚ) ∧
    (check_for_pinch_swipe ⟨700, 700, 0⟩ mA 0).complex_state = "swipe-right" ∧
    (check_for_pinch_swipe ⟨700, 700, 0⟩ mA 0).complex_state ≠ "swipe-up" ∧
    (check_for_pinch_swipe ⟨700, 700, 0⟩ mA 0).complex_state ≠ "swipe-down" := by
  have hstate : (check_for_pinch_swipe ⟨700, 700, 0⟩ mA 0).complex_state =
      "swipe-right" := by
    unfold check_for_pinch_swipe mA SWIPE_THRESHOLD pinch_timeout
    norm_num
  refine ⟨?_, ?_, hstate, ?_, ?_⟩
  · unfold mA pinch_timeout
    norm_num
  · unfold SWIPE_THRESHOLD
    norm_num
  · rw [hstate]; decide
  · rw [hstate]; decide

/-- Witness for `c2_swipe_horizontal_first` at a concrete velocity
`(0, 700, 0)` inside the pinch window: the vertical rule fires. -/
theorem c2_witness :
    (0 : ℚ) - mA.last_pinch_time ≤ pinch_timeout ∧
    (check_for_pinch_swipe ⟨0, 700, 0⟩ mA 0).complex_state = "swipe-up" :=
  have hwin : (0 : ℚ) - mA.last_pinch_time ≤ pinch_timeout := by
    unfold mA pinch_timeout; norm_num
  ⟨hwin,
   (c2_swipe_horizontal_first ⟨0, 700, 0⟩ mA 0 hwin).2.2.1
     (by unfold SWIPE_THRESHOLD; norm_num)
     (by unfold SWIPE_THRESHOLD; norm_num)⟩

/-! ## C6 — velocity estimation -/

/-- C6: `calculate_velocity` returns the componentwise average of
`(next - current)/Δt` over exactly the adjacent pairs with that hand
present in both entries and `Δt > 0` (the spec-side reformulation
`calculate_velocity_spec`), `(0,0,0)` for a buffer of fewer than two
entries, and `(0,0,0)` for a hand whose stored position is the same in
every buffered frame where it is present. -/
theorem c6_velocity (buf : List BufferEntry) (side : HandSide) :
    calculate_velocity buf side = calculate_velocity_spec buf side ∧
    (buf.length < 2 → calculate_velocity buf side = Vec3.zero) ∧
    (∀ p : Vec3, (∀ e ∈ buf, e.get side = none ∨ e.get side = some p) →
      calculate_velocity buf side = Vec3.zero) := by
  refine ⟨calculate_velocity_eq_spec buf side, fun h => ?_,
    fun p hp => calculate_velocity_stationary buf side p hp⟩
  unfold calculate_velocity
  rw [if_pos h]

/-- Witness for `c6_velocity` on a concrete two-entry buffer holding the
right hand at the same position twice: velocity is `(0,0,0)` and agrees
with the spec-side average. -/
theorem c6_witness :
    calculate_velocity
        [⟨0, none, some ⟨5, 6, 7⟩⟩, ⟨1, none, some ⟨5, 6, 7⟩⟩] .right =
      calculate_velocity_spec
        [⟨0, none, some ⟨5, 6, 7⟩⟩, ⟨1, none, some ⟨5, 6, 7⟩⟩] .right ∧
    calculate_velocity
        [⟨0, none, some ⟨5, 6, 7⟩⟩, ⟨1, none, some ⟨5, 6, 7⟩⟩] .right =
      Vec3.zero :=
  ⟨(c6_velocity _ .right).1,
   (c6_velocity _ .right).2.2 ⟨5, 6, 7⟩ (by
      intro e he
      rcases List.mem_cons.mp he with rfl | he1
      · exact Or.inr rfl
      · rcases List.mem_cons.mp he1 with rfl | he2
        · exact Or.inr rfl
        · cases he2)⟩

/-! ## C1 — the per-frame drawn-gesture query -/

/-- C1: the per-frame query `self.canvas.get_and_forget_drawn_gesture()`
(controller.py line 334) cannot succeed: `Canvas` defines no method of that
name, so the lookup raises `AttributeError`, and consequently no frame
processed by `active_handler` as written ever completes — the claim's
"this per-frame query succeeds on every frame" fails on every frame. -/
theorem c1_drawn_gesture_query_fails :
    get_and_forget_drawn_gesture_lookup = .error .attributeError ∧
    "get_and_forget_drawn_gesture" ∉ canvasMethodNames ∧
    ∀ store s hands now dist,
      (active_handler_as_written store s hands now dist).isOk = false := by
  have hnotin : "get_and_forget_drawn_gesture" ∉ canvasMethodNames := by decide
  refine ⟨by unfold get_and_forget_drawn_gesture_lookup; rw [if_neg hnotin], hnotin,
    fun store s hands now dist => ?_⟩
  have hlk : get_and_forget_drawn_gesture_lookup = .error .attributeError := by
    unfold get_and_forget_drawn_gesture_lookup
    rw [if_neg hnotin]
  unfold active_handler_as_written
  cases hfold : List.foldl (process_hand store
      (calculate_velocity (bufferAppend s.data_buffer (entryOfHands hands now))
        HandSide.right) now) (Except.ok s.machine) hands with
  | error e => rfl
  | ok m0 =>
    cases hfc : check_finger_cross hands with
    | error e => rfl
    | ok fc =>
      rw [hlk]
      rfl

/-! ## C9 — stroke capture in `_draw_bone` -/

/-- A canvas mid-capture: drawing active, rate-limit counter at 1. -/
def canvasD : CanvasState :=
  { drawn_points := [], is_drawing := true, counter := 1 }

theorem dequeAppend_length_le {α : Type} (n : ℕ) (l : List α) (a : α) :
    (dequeAppend n l a).length ≤ n := by
  unfold dequeAppend
  rw [List.length_drop]
  simp only [List.length_append, List.length_cons, List.length_nil]
  omega

set_option maxRecDepth 4000 in
/-- C9 (amended): points are captured only on the `_draw_bone` call for
digit 1 / bone 3 (the index distal bone, whose `next_joint` is the index
fingertip canvas position), only while drawing is active, on every second
eligible call, into a buffer bounded by 200 — but only from a hand whose
`type.value` equals 1, i.e. the RIGHT hand, not the left hand the claim
names (capture is still begun and ended by the left hand's pinch, see
`update_left_core`). -/
theorem c9_capture_conditions (c : CanvasState) (hand : Hand)
    (digit_idx bone_idx : ℕ) (bone_end : Option (ℤ × ℤ × ℤ))
    (hcap : c.drawn_points.length ≤ 200) :
    (draw_bone c hand digit_idx bone_idx bone_end).drawn_points.length ≤ 200 ∧
    ((draw_bone c hand digit_idx bone_idx bone_end).drawn_points ≠
        c.drawn_points →
      digit_idx = 1 ∧ bone_idx = 3 ∧ c.is_drawing = true ∧
      hand.type_value = 1 ∧ (c.counter + 1) % 2 = 0 ∧
      ∃ p, bone_end = some p ∧
        (draw_bone c hand digit_idx bone_idx bone_end).drawn_points =
          dequeAppend 200 c.drawn_points p) := by
  unfold draw_bone
  by_cases hd : digit_idx = 1 ∧ bone_idx = 3
  · rw [if_pos hd]
    by_cases hg : c.is_drawing ∧ hand.type_value = 1 ∧ bone_end.isSome
    · rw [if_pos hg]
      by_cases hcnt : (c.counter + 1) % 2 = 0
      · rw [if_pos hcnt]
        refine ⟨dequeAppend_length_le 200 c.drawn_points _, fun _ => ?_⟩
        rcases Option.isSome_iff_exists.mp hg.2.2 with ⟨p, hp⟩
        exact ⟨hd.1, hd.2, hg.1, hg.2.1, hcnt, p, hp, by rw [hp]; rfl⟩
      · rw [if_neg hcnt]
        exact ⟨hcap, fun hne => absurd rfl hne⟩
    · rw [if_neg hg]
      exact ⟨hcap, fun hne => absurd rfl hne⟩
  · rw [if_neg hd]
    exact ⟨hcap, fun hne => absurd rfl hne⟩

/-- Witness for `c9_capture_conditions` at a concrete eligible call. -/
theorem c9_witness :
    canvasD.drawn_points.length ≤ 200 ∧
    ((draw_bone canvasD testHandR 1 3 (some (3, 4, 5))).drawn_points.length ≤ 200 ∧
     ((draw_bone canvasD testHandR 1 3 (some (3, 4, 5))).drawn_points ≠
         canvasD.drawn_points →
       (1 : ℕ) = 1 ∧ (3 : ℕ) = 3 ∧ canvasD.is_drawing = true ∧
       testHandR.type_value = 1 ∧ (canvasD.counter + 1) % 2 = 0 ∧
       ∃ p, some ((3, 4, 5) : ℤ × ℤ × ℤ) = some p ∧
         (draw_bone canvasD testHandR 1 3 (some (3, 4, 5))).drawn_points =
           dequeAppend 200 canvasD.drawn_points p)) :=
  ⟨by decide, c9_capture_conditions canvasD testHandR 1 3 (some (3, 4, 5))
    (by decide)⟩

/-- Counterexample to C9 as stated: with capture active (drawing on,
counter ripe), the left hand (`type.value = 0`) never has its fingertip
appended, while the hand with `type.value = 1` — the right hand — does. -/
theorem c9_counterexample :
    canvasD.is_drawing = true ∧
    testHandL.type_value = 0 ∧
    (draw_bone canvasD testHandL 1 3 (some (3, 4, 5))).drawn_points = [] ∧
    testHandR.type_value = 1 ∧
    (draw_bone canvasD testHandR 1 3 (some (3, 4, 5))).drawn_points =
      [(3, 4, 5)] := by
  refine ⟨rfl, rfl, ?_, rfl, ?_⟩ <;> rfl

/-! ## C8 — missing reference templates -/

theorem scoreInsert_perm (a : String × WithTop ℚ)
    (l : List (String × WithTop ℚ)) : (scoreInsert a l).Perm (a :: l) := by
  induction l with
  | nil => exact List.Perm.refl _
  | cons b t ih =>
    unfold scoreInsert
    by_cases hb : b.2 ≤ a.2
    · rw [if_pos hb]
      exact ((ih.cons b).trans (List.Perm.swap a b t))
    · rw [if_neg hb]

theorem sortScores_perm (l : List (String × WithTop ℚ)) :
    (sortScores l).Perm l := by
  induction l with
  | nil => exact List.Perm.refl _
  | cons a t ih =>
    unfold sortScores
    exact (scoreInsert_perm a (sortScores t)).trans (ih.cons a)

/-- The names of the templates whose reference file exists. -/
def presentNames (store : TemplateStore) : List String :=
  store.filterMap (fun ng => ng.2.map (fun _ => ng.1))

theorem scored_map_fst (store : TemplateStore) (g : List (ℕ × ℕ)) :
    (store.filterMap
        (fun ng => ng.2.map (fun t => (ng.1, hausdorff_distanceSq g t)))).map
      Prod.fst = presentNames store := by
  induction store with
  | nil => rfl
  | cons ng t ih =>
    cases hng : ng.2 with
    | none =>
      unfold presentNames at ih ⊢
      simp [List.filterMap_cons, hng, ih]
    | some tg =>
      unfold presentNames at ih ⊢
      simp [List.filterMap_cons, hng, ih]

/-- C8 (amended): templates whose reference file is missing are skipped and
the ranking ranges over exactly the remaining ones; when at least one
template remains, or the stroke has at most 10 points, `stop_drawing`
completes and clears the stroke buffer regardless of the match outcome; but
when the stroke exceeds 10 points and NO template remains, `ranking[0]`
raises `IndexError`, `stop_drawing` fails, and the buffer is NOT cleared. -/
theorem c8_missing_templates (store : TemplateStore) (c : CanvasState) :
    ((rank_reference_gestures store
        (create_grid_from_points c.drawn_points)).map Prod.fst).Perm
      (presentNames store) ∧
    (10 < c.drawn_points.length → (∀ ng ∈ store, ng.2 = none) →
      stop_drawing store c = .error .indexError) ∧
    ((∃ ng ∈ store, ng.2 ≠ none) → 10 < c.drawn_points.length →
      stop_drawing store c =
        .ok { c with is_drawing := false, drawn_points := [] }) ∧
    (c.drawn_points.length ≤ 10 →
      stop_drawing store c =
        .ok { c with is_drawing := false, drawn_points := [] }) := by
  have hperm : ∀ g : List (ℕ × ℕ),
      ((rank_reference_gestures store g).map Prod.fst).Perm
        (presentNames store) := by
    intro g
    unfold rank_reference_gestures
    refine ((sortScores_perm _).map Prod.fst).trans ?_
    rw [scored_map_fst]
  refine ⟨hperm _, fun hlen hall => ?_, fun hex hlen => ?_, fun hlen => ?_⟩
  · have hrank : rank_reference_gestures store
        (create_grid_from_points c.drawn_points) = [] := by
      unfold rank_reference_gestures
      have hnil : store.filterMap (fun ng => ng.2.map
          (fun t => (ng.1, hausdorff_distanceSq
            (create_grid_from_points c.drawn_points) t))) = [] := by
        rw [List.filterMap_eq_nil_iff]
        intro ng hng
        rw [hall ng hng]
        rfl
      rw [hnil]
      rfl
    unfold stop_drawing
    rw [if_pos hlen, hrank]
  · have hne : rank_reference_gestures store
        (create_grid_from_points c.drawn_points) ≠ [] := by
      intro hnil
      have hlen0 := (hperm (create_grid_from_points c.drawn_points)).length_eq
      rw [hnil] at hlen0
      rcases hex with ⟨ng, hmem, hsome⟩
      have hmem2 : ng.1 ∈ presentNames store := by
        unfold presentNames
        rcases Option.ne_none_iff_exists.mp hsome with ⟨tg, htg⟩
        exact List.mem_filterMap.mpr ⟨ng, hmem, by rw [← htg]; rfl⟩
      have hpos := List.length_pos_of_mem hmem2
      simp only [List.map_nil, List.length_nil] at hlen0
      omega
    unfold stop_drawing
    rw [if_pos hlen]
    cases hrank : rank_reference_gestures store
        (create_grid_from_points c.drawn_points) with
    | nil => exact absurd hrank hne
    | cons r t => rfl
  · unfold stop_drawing
    rw [if_neg (by omega)]
    rfl

/-- Witness for `c8_missing_templates`: an 11-point stroke against a store
with one existing and one missing template completes and clears the
buffer (and the ranked names are a permutation of the present names). -/
theorem c8_witness :
    ((rank_reference_gestures
        ([("box", some [(0, 0)]), ("circle", none)] : TemplateStore)
        (create_grid_from_points
          (List.replicate 11 ((0, 0, 0) : ℤ × ℤ × ℤ)))).map Prod.fst).Perm
      (presentNames [("box", some [(0, 0)]), ("circle", none)]) ∧
    stop_drawing [("box", some [(0, 0)]), ("circle", none)]
        { drawn_points := List.replicate 11 (0, 0, 0), is_drawing := true,
          counter := 0 } =
      .ok { drawn_points := [], is_drawing := false, counter := 0 } :=
  ⟨(c8_missing_templates [("box", some [(0, 0)]), ("circle", none)]
      { drawn_points := List.replicate 11 (0, 0, 0), is_drawing := true,
        counter := 0 }).1,
   (c8_missing_templates [("box", some [(0, 0)]), ("circle", none)]
      { drawn_points := List.replicate 11 (0, 0, 0), is_drawing := true,
        counter := 0 }).2.2.1
    ⟨("box", some [(0, 0)]), by simp, by simp⟩ (by simp)⟩

/-- Counterexample to C8 as stated: an 11-point stroke while every
reference file is missing makes `stop_drawing` raise `IndexError`
(`ranking[0]` on an empty ranking) instead of deterministically reporting
no match, and the stroke buffer is not cleared. -/
theorem c8_counterexample :
    stop_drawing
        [("box", none), ("circle", none), ("vertical_line", none),
         ("horizontal_line", none), ("bar_chart", none),
         ("horizontal_bar_chart", none)]
        { drawn_points := List.replicate 11 (0, 0, 0), is_drawing := true,
          counter := 0 } = .error .indexError :=
  (c8_missing_templates _ _).2.1 (by simp)
    (by
      intro ng hng
      simp only [List.mem_cons, List.not_mem_nil, or_false] at hng
      rcases hng with rfl | rfl | rfl | rfl | rfl | rfl <;> rfl)


set_option maxRecDepth 40000 in
/-- All pairwise disequalities between the state strings of the controller,
packaged for `simp` so concrete evaluations can collapse the string
conditions of the embedded code. -/
theorem state_string_pairs :
    (("idle" = "open-palm-away") ↔ False) ∧
    (("idle" = "open-palm-towards") ↔ False) ∧
    (("idle" = "pinch-pressing") ↔ False) ∧
    (("idle" = "pinch-holding") ↔ False) ∧
    (("idle" = "grab-away-pressing") ↔ False) ∧
    (("idle" = "grab-away-holding") ↔ False) ∧
    (("idle" = "grab-towards-pressing") ↔ False) ∧
    (("idle" = "grab-towards-holding") ↔ False) ∧
    (("idle" = "thumbs_up") ↔ False) ∧
    (("idle" = "thumbs_down") ↔ False) ∧
    (("idle" = "zoom") ↔ False) ∧
    (("idle" = "finger-cross") ↔ False) ∧
    (("idle" = "swipe-up") ↔ False) ∧
    (("idle" = "swipe-down") ↔ False) ∧
    (("idle" = "swipe-left") ↔ False) ∧
    (("idle" = "swipe-right") ↔ False) ∧
    (("open-palm-away" = "idle") ↔ False) ∧
    (("open-palm-away" = "open-palm-towards") ↔ False) ∧
    (("open-palm-away" = "pinch-pressing") ↔ False) ∧
    (("open-palm-away" = "pinch-holding") ↔ False) ∧
    (("open-palm-away" = "grab-away-pressing") ↔ False) ∧
    (("open-palm-away" = "grab-away-holding") ↔ False) ∧
    (("open-palm-away" = "grab-towards-pressing") ↔ False) ∧
    (("open-palm-away" = "grab-towards-holding") ↔ False) ∧
    (("open-palm-away" = "thumbs_up") ↔ False) ∧
    (("open-palm-away" = "thumbs_down") ↔ False) ∧
    (("open-palm-away" = "zoom") ↔ False) ∧
    (("open-palm-away" = "finger-cross") ↔ False) ∧
    (("open-palm-away" = "swipe-up") ↔ False) ∧
    (("open-palm-away" = "swipe-down") ↔ False) ∧
    (("open-palm-away" = "swipe-left") ↔ False) ∧
    (("open-palm-away" = "swipe-right") ↔ False) ∧
    (("open-palm-towards" = "idle") ↔ False) ∧
    (("open-palm-towards" = "open-palm-away") ↔ False) ∧
    (("open-palm-towards" = "pinch-pressing") ↔ False) ∧
    (("open-palm-towards" = "pinch-holding") ↔ False) ∧
    (("open-palm-towards" = "grab-away-pressing") ↔ False) ∧
    (("open-palm-towards" = "grab-away-holding") ↔ False) ∧
    (("open-palm-towards" = "grab-towards-pressing") ↔ False) ∧
    (("open-palm-towards" = "grab-towards-holding") ↔ False) ∧
    (("open-palm-towards" = "thumbs_up") ↔ False) ∧
    (("open-palm-towards" = "thumbs_down") ↔ False) ∧
    (("open-palm-towards" = "zoom") ↔ False) ∧
    (("open-palm-towards" = "finger-cross") ↔ False) ∧
    (("open-palm-towards" = "swipe-up") ↔ False) ∧
    (("open-palm-towards" = "swipe-down") ↔ False) ∧
    (("open-palm-towards" = "swipe-left") ↔ False) ∧
    (("open-palm-towards" = "swipe-right") ↔ False) ∧
    (("pinch-pressing" = "idle") ↔ False) ∧
    (("pinch-pressing" = "open-palm-away") ↔ False) ∧
    (("pinch-pressing" = "open-palm-towards") ↔ False) ∧
    (("pinch-pressing" = "pinch-holding") ↔ False) ∧
    (("pinch-pressing" = "grab-away-pressing") ↔ False) ∧
    (("pinch-pressing" = "grab-away-holding") ↔ False) ∧
    (("pinch-pressing" = "grab-towards-pressing") ↔ False) ∧
    (("pinch-pressing" = "grab-towards-holding") ↔ False) ∧
    (("pinch-pressing" = "thumbs_up") ↔ False) ∧
    (("pinch-pressing" = "thumbs_down") ↔ False) ∧
    (("pinch-pressing" = "zoom") ↔ False) ∧
    (("pinch-pressing" = "finger-cross") ↔ False) ∧
    (("pinch-pressing" = "swipe-up") ↔ False) ∧
    (("pinch-pressing" = "swipe-down") ↔ False) ∧
    (("pinch-pressing" = "swipe-left") ↔ False) ∧
    (("pinch-pressing" = "swipe-right") ↔ False) ∧
    (("pinch-holding" = "idle") ↔ False) ∧
    (("pinch-holding" = "open-palm-away") ↔ False) ∧
    (("pinch-holding" = "open-palm-towards") ↔ False) ∧
    (("pinch-holding" = "pinch-pressing") ↔ False) ∧
    (("pinch-holding" = "grab-away-pressing") ↔ False) ∧
    (("pinch-holding" = "grab-away-holding") ↔ False) ∧
    (("pinch-holding" = "grab-towards-pressing") ↔ False) ∧
    (("pinch-holding" = "grab-towards-holding") ↔ False) ∧
    (("pinch-holding" = "thumbs_up") ↔ False) ∧
    (("pinch-holding" = "thumbs_down") ↔ False) ∧
    (("pinch-holding" = "zoom") ↔ False) ∧
    (("pinch-holding" = "finger-cross") ↔ False) ∧
    (("pinch-holding" = "swipe-up") ↔ False) ∧
    (("pinch-holding" = "swipe-down") ↔ False) ∧
    (("pinch-holding" = "swipe-left") ↔ False) ∧
    (("pinch-holding" = "swipe-right") ↔ False) ∧
    (("grab-away-pressing" = "idle") ↔ False) ∧
    (("grab-away-pressing" = "open-palm-away") ↔ False) ∧
    (("grab-away-pressing" = "open-palm-towards") ↔ False) ∧
    (("grab-away-pressing" = "pinch-pressing") ↔ False) ∧
    (("grab-away-pressing" = "pinch-holding") ↔ False) ∧
    (("grab-away-pressing" = "grab-away-holding") ↔ False) ∧
    (("grab-away-pressing" = "grab-towards-pressing") ↔ False) ∧
    (("grab-away-pressing" = "grab-towards-holding") ↔ False) ∧
    (("grab-away-pressing" = "thumbs_up") ↔ False) ∧
    (("grab-away-pressing" = "thumbs_down") ↔ False) ∧
    (("grab-away-pressing" = "zoom") ↔ False) ∧
    (("grab-away-pressing" = "finger-cross") ↔ False) ∧
    (("grab-away-pressing" = "swipe-up") ↔ False) ∧
    (("grab-away-pressing" = "swipe-down") ↔ False) ∧
    (("grab-away-pressing" = "swipe-left") ↔ False) ∧
    (("grab-away-pressing" = "swipe-right") ↔ False) ∧
    (("grab-away-holding" = "idle") ↔ False) ∧
    (("grab-away-holding" = "open-palm-away") ↔ False) ∧
    (("grab-away-holding" = "open-palm-towards") ↔ False) ∧
    (("grab-away-holding" = "pinch-pressing") ↔ False) ∧
    (("grab-away-holding" = "pinch-holding") ↔ False) ∧
    (("grab-away-holding" = "grab-away-pressing") ↔ False) ∧
    (("grab-away-holding" = "grab-towards-pressing") ↔ False) ∧
    (("grab-away-holding" = "grab-towards-holding") ↔ False) ∧
    (("grab-away-holding" = "thumbs_up") ↔ False) ∧
    (("grab-away-holding" = "thumbs_down") ↔ False) ∧
    (("grab-away-holding" = "zoom") ↔ False) ∧
    (("grab-away-holding" = "finger-cross") ↔ False) ∧
    (("grab-away-holding" = "swipe-up") ↔ False) ∧
    (("grab-away-holding" = "swipe-down") ↔ False) ∧
    (("grab-away-holding" = "swipe-left") ↔ False) ∧
    (("grab-away-holding" = "swipe-right") ↔ False) ∧
    (("grab-towards-pressing" = "idle") ↔ False) ∧
    (("grab-towards-pressing" = "open-palm-away") ↔ False) ∧
    (("grab-towards-pressing" = "open-palm-towards") ↔ False) ∧
    (("grab-towards-pressing" = "pinch-pressing") ↔ False) ∧
    (("grab-towards-pressing" = "pinch-holding") ↔ False) ∧
    (("grab-towards-pressing" = "grab-away-pressing") ↔ False) ∧
    (("grab-towards-pressing" = "grab-away-holding") ↔ False) ∧
    (("grab-towards-pressing" = "grab-towards-holding") ↔ False) ∧
    (("grab-towards-pressing" = "thumbs_up") ↔ False) ∧
    (("grab-towards-pressing" = "thumbs_down") ↔ False) ∧
    (("grab-towards-pressing" = "zoom") ↔ False) ∧
    (("grab-towards-pressing" = "finger-cross") ↔ False) ∧
    (("grab-towards-pressing" = "swipe-up") ↔ False) ∧
    (("grab-towards-pressing" = "swipe-down") ↔ False) ∧
    (("grab-towards-pressing" = "swipe-left") ↔ False) ∧
    (("grab-towards-pressing" = "swipe-right") ↔ False) ∧
    (("grab-towards-holding" = "idle") ↔ False) ∧
    (("grab-towards-holding" = "open-palm-away") ↔ False) ∧
    (("grab-towards-holding" = "open-palm-towards") ↔ False) ∧
    (("grab-towards-holding" = "pinch-pressing") ↔ False) ∧
    (("grab-towards-holding" = "pinch-holding") ↔ False) ∧
    (("grab-towards-holding" = "grab-away-pressing") ↔ False) ∧
    (("grab-towards-holding" = "grab-away-holding") ↔ False) ∧
    (("grab-towards-holding" = "grab-towards-pressing") ↔ False) ∧
    (("grab-towards-holding" = "thumbs_up") ↔ False) ∧
    (("grab-towards-holding" = "thumbs_down") ↔ False) ∧
    (("grab-towards-holding" = "zoom") ↔ False) ∧
    (("grab-towards-holding" = "finger-cross") ↔ False) ∧
    (("grab-towards-holding" = "swipe-up") ↔ False) ∧
    (("grab-towards-holding" = "swipe-down") ↔ False) ∧
    (("grab-towards-holding" = "swipe-left") ↔ False) ∧
    (("grab-towards-holding" = "swipe-right") ↔ False) ∧
    (("thumbs_up" = "idle") ↔ False) ∧
    (("thumbs_up" = "open-palm-away") ↔ False) ∧
    (("thumbs_up" = "open-palm-towards") ↔ False) ∧
    (("thumbs_up" = "pinch-pressing") ↔ False) ∧
    (("thumbs_up" = "pinch-holding") ↔ False) ∧
    (("thumbs_up" = "grab-away-pressing") ↔ False) ∧
    (("thumbs_up" = "grab-away-holding") ↔ False) ∧
    (("thumbs_up" = "grab-towards-pressing") ↔ False) ∧
    (("thumbs_up" = "grab-towards-holding") ↔ False) ∧
    (("thumbs_up" = "thumbs_down") ↔ False) ∧
    (("thumbs_up" = "zoom") ↔ False) ∧
    (("thumbs_up" = "finger-cross") ↔ False) ∧
    (("thumbs_up" = "swipe-up") ↔ False) ∧
    (("thumbs_up" = "swipe-down") ↔ False) ∧
    (("thumbs_up" = "swipe-left") ↔ False) ∧
    (("thumbs_up" = "swipe-right") ↔ False) ∧
    (("thumbs_down" = "idle") ↔ False) ∧
    (("thumbs_down" = "open-palm-away") ↔ False) ∧
    (("thumbs_down" = "open-palm-towards") ↔ False) ∧
    (("thumbs_down" = "pinch-pressing") ↔ False) ∧
    (("thumbs_down" = "pinch-holding") ↔ False) ∧
    (("thumbs_down" = "grab-away-pressing") ↔ False) ∧
    (("thumbs_down" = "grab-away-holding") ↔ False) ∧
    (("thumbs_down" = "grab-towards-pressing") ↔ False) ∧
    (("thumbs_down" = "grab-towards-holding") ↔ False) ∧
    (("thumbs_down" = "thumbs_up") ↔ False) ∧
    (("thumbs_down" = "zoom") ↔ False) ∧
    (("thumbs_down" = "finger-cross") ↔ False) ∧
    (("thumbs_down" = "swipe-up") ↔ False) ∧
    (("thumbs_down" = "swipe-down") ↔ False) ∧
    (("thumbs_down" = "swipe-left") ↔ False) ∧
    (("thumbs_down" = "swipe-right") ↔ False) ∧
    (("zoom" = "idle") ↔ False) ∧
    (("zoom" = "open-palm-away") ↔ False) ∧
    (("zoom" = "open-palm-towards") ↔ False) ∧
    (("zoom" = "pinch-pressing") ↔ False) ∧
    (("zoom" = "pinch-holding") ↔ False) ∧
    (("zoom" = "grab-away-pressing") ↔ False) ∧
    (("zoom" = "grab-away-holding") ↔ False) ∧
    (("zoom" = "grab-towards-pressing") ↔ False) ∧
    (("zoom" = "grab-towards-holding") ↔ False) ∧
    (("zoom" = "thumbs_up") ↔ False) ∧
    (("zoom" = "thumbs_down") ↔ False) ∧
    (("zoom" = "finger-cross") ↔ False) ∧
    (("zoom" = "swipe-up") ↔ False) ∧
    (("zoom" = "swipe-down") ↔ False) ∧
    (("zoom" = "swipe-left") ↔ False) ∧
    (("zoom" = "swipe-right") ↔ False) ∧
    (("finger-cross" = "idle") ↔ False) ∧
    (("finger-cross" = "open-palm-away") ↔ False) ∧
    (("finger-cross" = "open-palm-towards") ↔ False) ∧
    (("finger-cross" = "pinch-pressing") ↔ False) ∧
    (("finger-cross" = "pinch-holding") ↔ False) ∧
    (("finger-cross" = "grab-away-pressing") ↔ False) ∧
    (("finger-cross" = "grab-away-holding") ↔ False) ∧
    (("finger-cross" = "grab-towards-pressing") ↔ False) ∧
    (("finger-cross" = "grab-towards-holding") ↔ False) ∧
    (("finger-cross" = "thumbs_up") ↔ False) ∧
    (("finger-cross" = "thumbs_down") ↔ False) ∧
    (("finger-cross" = "zoom") ↔ False) ∧
    (("finger-cross" = "swipe-up") ↔ False) ∧
    (("finger-cross" = "swipe-down") ↔ False) ∧
    (("finger-cross" = "swipe-left") ↔ False) ∧
    (("finger-cross" = "swipe-right") ↔ False) ∧
    (("swipe-up" = "idle") ↔ False) ∧
    (("swipe-up" = "open-palm-away") ↔ False) ∧
    (("swipe-up" = "open-palm-towards") ↔ False) ∧
    (("swipe-up" = "pinch-pressing") ↔ False) ∧
    (("swipe-up" = "pinch-holding") ↔ False) ∧
    (("swipe-up" = "grab-away-pressing") ↔ False) ∧
    (("swipe-up" = "grab-away-holding") ↔ False) ∧
    (("swipe-up" = "grab-towards-pressing") ↔ False) ∧
    (("swipe-up" = "grab-towards-holding") ↔ False) ∧
    (("swipe-up" = "thumbs_up") ↔ False) ∧
    (("swipe-up" = "thumbs_down") ↔ False) ∧
    (("swipe-up" = "zoom") ↔ False) ∧
    (("swipe-up" = "finger-cross") ↔ False) ∧
    (("swipe-up" = "swipe-down") ↔ False) ∧
    (("swipe-up" = "swipe-left") ↔ False) ∧
    (("swipe-up" = "swipe-right") ↔ False) ∧
    (("swipe-down" = "idle") ↔ False) ∧
    (("swipe-down" = "open-palm-away") ↔ False) ∧
    (("swipe-down" = "open-palm-towards") ↔ False) ∧
    (("swipe-down" = "pinch-pressing") ↔ False) ∧
    (("swipe-down" = "pinch-holding") ↔ False) ∧
    (("swipe-down" = "grab-away-pressing") ↔ False) ∧
    (("swipe-down" = "grab-away-holding") ↔ False) ∧
    (("swipe-down" = "grab-towards-pressing") ↔ False) ∧
    (("swipe-down" = "grab-towards-holding") ↔ False) ∧
    (("swipe-down" = "thumbs_up") ↔ False) ∧
    (("swipe-down" = "thumbs_down") ↔ False) ∧
    (("swipe-down" = "zoom") ↔ False) ∧
    (("swipe-down" = "finger-cross") ↔ False) ∧
    (("swipe-down" = "swipe-up") ↔ False) ∧
    (("swipe-down" = "swipe-left") ↔ False) ∧
    (("swipe-down" = "swipe-right") ↔ False) ∧
    (("swipe-left" = "idle") ↔ False) ∧
    (("swipe-left" = "open-palm-away") ↔ False) ∧
    (("swipe-left" = "open-palm-towards") ↔ False) ∧
    (("swipe-left" = "pinch-pressing") ↔ False) ∧
    (("swipe-left" = "pinch-holding") ↔ False) ∧
    (("swipe-left" = "grab-away-pressing") ↔ False) ∧
    (("swipe-left" = "grab-away-holding") ↔ False) ∧
    (("swipe-left" = "grab-towards-pressing") ↔ False) ∧
    (("swipe-left" = "grab-towards-holding") ↔ False) ∧
    (("swipe-left" = "thumbs_up") ↔ False) ∧
    (("swipe-left" = "thumbs_down") ↔ False) ∧
    (("swipe-left" = "zoom") ↔ False) ∧
    (("swipe-left" = "finger-cross") ↔ False) ∧
    (("swipe-left" = "swipe-up") ↔ False) ∧
    (("swipe-left" = "swipe-down") ↔ False) ∧
    (("swipe-left" = "swipe-right") ↔ False) ∧
    (("swipe-right" = "idle") ↔ False) ∧
    (("swipe-right" = "open-palm-away") ↔ False) ∧
    (("swipe-right" = "open-palm-towards") ↔ False) ∧
    (("swipe-right" = "pinch-pressing") ↔ False) ∧
    (("swipe-right" = "pinch-holding") ↔ False) ∧
    (("swipe-right" = "grab-away-pressing") ↔ False) ∧
    (("swipe-right" = "grab-away-holding") ↔ False) ∧
    (("swipe-right" = "grab-towards-pressing") ↔ False) ∧
    (("swipe-right" = "grab-towards-holding") ↔ False) ∧
    (("swipe-right" = "thumbs_up") ↔ False) ∧
    (("swipe-right" = "thumbs_down") ↔ False) ∧
    (("swipe-right" = "zoom") ↔ False) ∧
    (("swipe-right" = "finger-cross") ↔ False) ∧
    (("swipe-right" = "swipe-up") ↔ False) ∧
    (("swipe-right" = "swipe-down") ↔ False) ∧
    (("swipe-right" = "swipe-left") ↔ False) :=
  ⟨by decide, iff_false_intro (by decide), by decide, iff_false_intro (by decide), by decide, iff_false_intro (by decide), by decide, iff_false_intro (by decide), by decide, iff_false_intro (by decide), by decide, iff_false_intro (by decide), by decide, iff_false_intro (by decide), by decide, iff_false_intro (by decide), by decide, iff_false_intro (by decide), by decide, iff_false_intro (by decide), by decide, iff_false_intro (by decide), by decide, iff_false_intro (by decide), by decide, iff_false_intro (by decide), by decide, iff_false_intro (by decide), by decide, iff_false_intro (by decide), by decide, iff_false_intro (by decide), by decide, iff_false_intro (by decide), by decide, iff_false_intro (by decide), by decide, iff_false_intro (by decide), by decide, iff_false_intro (by decide), by decide, iff_false_intro (by decide), by decide, iff_false_intro (by decide), by decide, iff_false_intro (by decide), by decide, iff_false_intro (by decide), by decide, iff_false_intro (by decide), by decide, iff_false_intro (by decide), by decide, iff_false_intro (by decide), by decide, iff_false_intro (by decide), by decide, iff_false_intro (by decide), by decide, iff_false_intro (by decide), by decide, iff_false_intro (by decide), by decide, iff_false_intro (by decide), by decide, iff_false_intro (by decide), by decide, iff_false_intro (by decide), by decide, iff_false_intro (by decide), by decide, iff_false_intro (by decide), by decide, iff_false_intro (by decide), by decide, iff_false_intro (by decide), by decide, iff_false_intro (by decide), by decide, iff_false_intro (by decide), by decide, iff_false_intro (by decide), by decide, iff_false_intro (by decide), by decide, iff_false_intro (by decide), by decide, iff_false_intro (by decide), by decide, iff_false_intro (by decide), by decide, iff_false_intro (by decide), by decide, iff_false_intro (by decide), by decide, iff_false_intro (by decide), by decide, iff_false_intro (by decide), by decide, iff_false_intro (by decide), by decide, iff_false_intro (by decide), by decide, iff_false_intro (by decide), by decide, iff_false_intro (by decide), by decide, iff_false_intro (by decide), by decide, iff_false_intro (by decide), by decide, iff_false_intro (by decide), by decide, iff_false_intro (by decide), by decide, iff_false_intro (by decide), by decide, iff_false_intro (by decide), by decide, iff_false_intro (by decide), by decide, iff_false_intro (by decide), by decide, iff_false_intro (by decide), by decide, iff_false_intro (by decide), by decide, iff_false_intro (by decide), by decide, iff_false_intro (by decide), by decide, iff_false_intro (by decide), by decide, iff_false_intro (by decide), by decide, iff_false_intro (by decide), by decide, iff_false_intro (by decide), by decide, iff_false_intro (by decide), by decide, iff_false_intro (by decide), by decide, iff_false_intro (by decide), by decide, iff_false_intro (by decide), by decide, iff_false_intro (by decide), by decide, iff_false_intro (by decide), by decide, iff_false_intro (by decide), by decide, iff_false_intro (by decide), by decide, iff_false_intro (by decide), by decide, iff_false_intro (by decide), by decide, iff_false_intro (by decide), by decide, iff_false_intro (by decide), by decide, iff_false_intro (by decide), by decide, iff_false_intro (by decide), by decide, iff_false_intro (by decide), by decide, iff_false_intro (by decide), by decide, iff_false_intro (by decide), by decide, iff_false_intro (by decide), by decide, iff_false_intro (by decide), by decide, iff_false_intro (by decide), by decide, iff_false_intro (by decide), by decide, iff_false_intro (by decide), by decide, iff_false_intro (by decide), by decide, iff_false_intro (by decide), by decide, iff_false_intro (by decide), by decide, iff_false_intro (by decide), by decide, iff_false_intro (by decide), by decide, iff_false_intro (by decide), by decide, iff_false_intro (by decide), by decide, iff_false_intro (by decide), by decide, iff_false_intro (by decide), by decide, iff_false_intro (by decide), by decide, iff_false_intro (by decide), by decide, iff_false_intro (by decide), by decide, iff_false_intro (by decide), by decide, iff_false_intro (by decide), by decide, iff_false_intro (by decide), by decide, iff_false_intro (by decide), by decide, iff_false_intro (by decide), by decide, iff_false_intro (by decide), by decide, iff_false_intro (by decide), by decide, iff_false_intro (by decide), by decide, iff_false_intro (by decide), by decide, iff_false_intro (by decide), by decide, iff_false_intro (by decide), by decide, iff_false_intro (by decide), by decide, iff_false_intro (by decide), by decide, iff_false_intro (by decide), by decide, iff_false_intro (by decide), by decide, iff_false_intro (by decide), by decide, iff_false_intro (by decide), by decide, iff_false_intro (by decide), by decide, iff_false_intro (by decide), by decide, iff_false_intro (by decide), by decide, iff_false_intro (by decide), by decide, iff_false_intro (by decide), by decide, iff_false_intro (by decide), by decide, iff_false_intro (by decide), by decide, iff_false_intro (by decide), by decide, iff_false_intro (by decide), by decide, iff_false_intro (by decide), by decide, iff_false_intro (by decide), by decide, iff_false_intro (by decide), by decide, iff_false_intro (by decide), by decide, iff_false_intro (by decide), by decide, iff_false_intro (by decide), by decide, iff_false_intro (by decide)⟩

/-! ## C5 — no holding state without its pressing state -/

/-- The three press-and-hold gesture families of the state machines. -/
inductive HoldKind where
  | pinch : HoldKind
  | grabAway : HoldKind
  | grabTowards : HoldKind
deriving DecidableEq, Repr

/-- The holding state string of a family. -/
def HoldKind.holding : HoldKind → String
  | .pinch => "pinch-holding"
  | .grabAway => "grab-away-holding"
  | .grabTowards => "grab-towards-holding"

/-- The pressing state string of a family. -/
def HoldKind.pressing : HoldKind → String
  | .pinch => "pinch-pressing"
  | .grabAway => "grab-away-pressing"
  | .grabTowards => "grab-towards-pressing"

theorem check_thumb_gesture_values (h : Hand) (g : String)
    (hg : check_thumb_gesture h = some g) :
    g = "thumbs_up" ∨ g = "thumbs_down" := by
  unfold check_thumb_gesture at hg
  split_ifs at hg with hc
  all_goals try split at hg
  all_goals first
    | exact Or.inl (Option.some.inj hg).symm
    | exact Or.inr (Option.some.inj hg).symm
    | cases hg

theorem check_for_pinch_swipe_hand_state_right (v : Vec3) (m : MachineState)
    (now : ℚ) :
    (check_for_pinch_swipe v m now).hand_state_right = m.hand_state_right := by
  simp only [check_for_pinch_swipe]
  split_ifs <;> rfl

theorem check_for_pinch_swipe_hand_state_left (v : Vec3) (m : MachineState)
    (now : ℚ) :
    (check_for_pinch_swipe v m now).hand_state_left = m.hand_state_left := by
  simp only [check_for_pinch_swipe]
  split_ifs <;> rfl

theorem thumb_overlay_right_eq (m1 : MachineState) (d : ℚ) (h : Hand)
    (t : String) (h1 : t ≠ "thumbs_up") (h2 : t ≠ "thumbs_down")
    (h3 : t ≠ "open-palm-away") (h4 : t ≠ "open-palm-towards")
    (hres : (thumb_overlay_right m1 d h).hand_state_right = t) :
    m1.hand_state_right = t := by
  unfold thumb_overlay_right at hres
  cases hg : check_thumb_gesture h with
  | some g =>
    simp only [hg] at hres
    rcases check_thumb_gesture_values h g hg with rfl | rfl
    · by_cases he : m1.hand_state_right ≠ "thumbs_up"
      · rw [if_pos he] at hres
        exact absurd hres.symm h1
      · rw [if_neg he] at hres
        exact hres
    · by_cases he : m1.hand_state_right ≠ "thumbs_down"
      · rw [if_pos he] at hres
        exact absurd hres.symm h2
      · rw [if_neg he] at hres
        exact hres
  | none =>
    simp only [hg] at hres
    by_cases ho : m1.hand_state_right = "thumbs_up" ∨
        m1.hand_state_right = "thumbs_down"
    · rw [if_pos ho] at hres
      unfold openPalm at hres
      by_cases hd : d < 0
      · rw [if_pos hd] at hres
        exact absurd hres.symm h3
      · rw [if_neg hd] at hres
        exact absurd hres.symm h4
    · rw [if_neg ho] at hres
      exact hres

theorem thumb_overlay_left_eq (m1 : MachineState) (d : ℚ) (h : Hand)
    (t : String) (h1 : t ≠ "thumbs_up") (h2 : t ≠ "thumbs_down")
    (h3 : t ≠ "open-palm-away") (h4 : t ≠ "open-palm-towards")
    (hres : (thumb_overlay_left m1 d h).hand_state_left = t) :
    m1.hand_state_left = t := by
  unfold thumb_overlay_left at hres
  cases hg : check_thumb_gesture h with
  | some g =>
    simp only [hg] at hres
    rcases check_thumb_gesture_values h g hg with rfl | rfl
    · by_cases he : m1.hand_state_left ≠ "thumbs_up"
      · rw [if_pos he] at hres
        exact absurd hres.symm h1
      · rw [if_neg he] at hres
        exact hres
    · by_cases he : m1.hand_state_left ≠ "thumbs_down"
      · rw [if_pos he] at hres
        exact absurd hres.symm h2
      · rw [if_neg he] at hres
        exact hres
  | none =>
    simp only [hg] at hres
    by_cases ho : m1.hand_state_left = "thumbs_up" ∨
        m1.hand_state_left = "thumbs_down"
    · rw [if_pos ho] at hres
      unfold openPalm at hres
      by_cases hd : d < 0
      · rw [if_pos hd] at hres
        exact absurd hres.symm h3
      · rw [if_neg hd] at hres
        exact absurd hres.symm h4
    · rw [if_neg ho] at hres
      exact hres

set_option maxHeartbeats 1600000 in
theorem update_right_core_holding (v : Vec3) (m : MachineState)
    (g p py d : ℚ) (h : Hand) (now : ℚ) (k : HoldKind)
    (hres : (update_right_core v m g p py d h now).hand_state_right =
      k.holding) :
    m.hand_state_right = k.pressing ∨ m.hand_state_right = k.holding := by
  simp only [update_right_core, openPalm] at hres
  set gest := classify_gesture g p d h
  split_ifs at hres <;>
    (try simp only [check_for_pinch_swipe_hand_state_right] at hres) <;>
    (try dsimp only at hres) <;>
    cases k <;>
    simp_all [HoldKind.holding, HoldKind.pressing]

set_option maxHeartbeats 1600000 in
theorem update_right_core_promotion (v : Vec3) (m : MachineState)
    (g p py d : ℚ) (h : Hand) (now : ℚ) (k : HoldKind)
    (hpre : m.hand_state_right = k.pressing)
    (hres : (update_right_core v m g p py d h now).hand_state_right =
      k.holding) :
    hold_threshold ≤ now - m.hand_press_time_right := by
  simp only [update_right_core, openPalm] at hres
  set gest := classify_gesture g p d h
  split_ifs at hres <;>
    (try simp only [check_for_pinch_swipe_hand_state_right] at hres) <;>
    (try dsimp only at hres) <;>
    cases k <;>
    simp_all [HoldKind.holding, HoldKind.pressing]

theorem update_right_holding (v : Vec3) (m : MachineState)
    (g p py d : ℚ) (h : Hand) (now : ℚ) (k : HoldKind)
    (hres : (update_right_hand_state v m g p py d h now).hand_state_right =
      k.holding) :
    m.hand_state_right = k.pressing ∨ m.hand_state_right = k.holding := by
  unfold update_right_hand_state at hres
  have hcore := thumb_overlay_right_eq _ d h _
    (by cases k <;> simp [HoldKind.holding])
    (by cases k <;> simp [HoldKind.holding])
    (by cases k <;> simp [HoldKind.holding])
    (by cases k <;> simp [HoldKind.holding]) hres
  exact update_right_core_holding v m g p py d h now k hcore

theorem update_right_promotion (v : Vec3) (m : MachineState)
    (g p py d : ℚ) (h : Hand) (now : ℚ) (k : HoldKind)
    (hpre : m.hand_state_right = k.pressing)
    (hres : (update_right_hand_state v m g p py d h now).hand_state_right =
      k.holding) :
    hold_threshold ≤ now - m.hand_press_time_right := by
  unfold update_right_hand_state at hres
  have hcore := thumb_overlay_right_eq _ d h _
    (by cases k <;> simp [HoldKind.holding])
    (by cases k <;> simp [HoldKind.holding])
    (by cases k <;> simp [HoldKind.holding])
    (by cases k <;> simp [HoldKind.holding]) hres
  exact update_right_core_promotion v m g p py d h now k hpre hcore

set_option maxHeartbeats 1600000 in
theorem update_left_core_holding (store : TemplateStore) (m : MachineState)
    (g p py d : ℚ) (h : Hand) (now : ℚ) (k : HoldKind) (m1 : MachineState)
    (heq : update_left_core store m g p py d h now = .ok m1)
    (hres : m1.hand_state_left = k.holding) :
    m.hand_state_left = k.pressing ∨ m.hand_state_left = k.holding := by
  simp only [update_left_core, openPalm] at heq
  set gest := classify_gesture g p d h
  split_ifs at heq <;>
    (try (cases hsd : stop_drawing store m.canvas <;> rw [hsd] at heq)) <;>
    cases heq <;>
    cases k <;>
    simp_all [HoldKind.holding, HoldKind.pressing]

set_option maxHeartbeats 1600000 in
theorem update_left_core_promotion (store : TemplateStore) (m : MachineState)
    (g p py d : ℚ) (h : Hand) (now : ℚ) (k : HoldKind) (m1 : MachineState)
    (hpre : m.hand_state_left = k.pressing)
    (heq : update_left_core store m g p py d h now = .ok m1)
    (hres : m1.hand_state_left = k.holding) :
    hold_threshold ≤ now - m.hand_press_time_left := by
  simp only [update_left_core, openPalm] at heq
  set gest := classify_gesture g p d h
  split_ifs at heq <;>
    (try (cases hsd : stop_drawing store m.canvas <;> rw [hsd] at heq)) <;>
    cases heq <;>
    cases k <;>
    simp_all [HoldKind.holding, HoldKind.pressing]

theorem update_left_holding (store : TemplateStore) (m : MachineState)
    (g p py d : ℚ) (h : Hand) (now : ℚ) (k : HoldKind) (m2 : MachineState)
    (heq : update_left_hand_state store m g p py d h now = .ok m2)
    (hres : m2.hand_state_left = k.holding) :
    m.hand_state_left = k.pressing ∨ m.hand_state_left = k.holding := by
  unfold update_left_hand_state at heq
  cases hcore : update_left_core store m g p py d h now with
  | error e => rw [hcore] at heq; cases heq
  | ok m1 =>
    rw [hcore] at heq
    cases heq
    have hm1 := thumb_overlay_left_eq m1 d h _
      (by cases k <;> simp [HoldKind.holding])
      (by cases k <;> simp [HoldKind.holding])
      (by cases k <;> simp [HoldKind.holding])
      (by cases k <;> simp [HoldKind.holding]) hres
    exact update_left_core_holding store m g p py d h now k m1 hcore hm1

theorem update_left_promotion (store : TemplateStore) (m : MachineState)
    (g p py d : ℚ) (h : Hand) (now : ℚ) (k : HoldKind) (m2 : MachineState)
    (hpre : m.hand_state_left = k.pressing)
    (heq : update_left_hand_state store m g p py d h now = .ok m2)
    (hres : m2.hand_state_left = k.holding) :
    hold_threshold ≤ now - m.hand_press_time_left := by
  unfold update_left_hand_state at heq
  cases hcore : update_left_core store m g p py d h now with
  | error e => rw [hcore] at heq; cases heq
  | ok m1 =>
    rw [hcore] at heq
    cases heq
    have hm1 := thumb_overlay_left_eq m1 d h _
      (by cases k <;> simp [HoldKind.holding])
      (by cases k <;> simp [HoldKind.holding])
      (by cases k <;> simp [HoldKind.holding])
      (by cases k <;> simp [HoldKind.holding]) hres
    exact update_left_core_promotion store m g p py d h now k m1 hpre hcore hm1

/-- The per-frame arguments the controller passes to
`update_right_hand_state`: the cached right-hand velocity, the four scalars,
the hand sample (`curr_hand`) and the frame time. -/
structure RightInput where
  vel : Vec3
  grab_strength : ℚ
  pinch_strength : ℚ
  palm_y : ℚ
  dot_product : ℚ
  curr_hand : Hand
  now : ℚ

/-- A sequence of frames driving the right-hand machine. -/
def run_right (m : MachineState) : List RightInput → MachineState
  | [] => m
  | i :: rest =>
    run_right (update_right_hand_state i.vel m i.grab_strength
      i.pinch_strength i.palm_y i.dot_product i.curr_hand i.now) rest

/-- The per-frame arguments of `update_left_hand_state`. -/
structure LeftInput where
  grab_strength : ℚ
  pinch_strength : ℚ
  palm_y : ℚ
  dot_product : ℚ
  curr_hand : Hand
  now : ℚ

/-- A sequence of frames driving the left-hand machine; a raised exception
(from `stop_drawing`) aborts the run. -/
def run_left (store : TemplateStore) (m : MachineState) :
    List LeftInput → Except PyErr MachineState
  | [] => .ok m
  | i :: rest =>
    match update_left_hand_state store m i.grab_strength i.pinch_strength
        i.palm_y i.dot_product i.curr_hand i.now with
    | .error e => .error e
    | .ok m2 => run_left store m2 rest

theorem run_right_holding (l : List RightInput) (m : MachineState)
    (k : HoldKind)
    (hres : (run_right m l).hand_state_right = k.holding) :
    m.hand_state_right = k.holding ∨
      ∃ l1 l2, l = l1 ++ l2 ∧
        (run_right m l1).hand_state_right = k.pressing := by
  induction l generalizing m with
  | nil => exact Or.inl hres
  | cons i rest ih =>
    rcases ih _ hres with hh | ⟨l1, l2, hsplit, hp⟩
    · rcases update_right_holding i.vel m i.grab_strength i.pinch_strength
          i.palm_y i.dot_product i.curr_hand i.now k hh with hp | hh2
      · exact Or.inr ⟨[], i :: rest, rfl, hp⟩
      · exact Or.inl hh2
    · exact Or.inr ⟨i :: l1, l2, by rw [hsplit, List.cons_append], hp⟩

theorem run_left_holding (store : TemplateStore) (l : List LeftInput)
    (m : MachineState) (k : HoldKind) (mf : MachineState)
    (hrun : run_left store m l = .ok mf)
    (hres : mf.hand_state_left = k.holding) :
    m.hand_state_left = k.holding ∨
      ∃ l1 l2 m1, l = l1 ++ l2 ∧ run_left store m l1 = .ok m1 ∧
        m1.hand_state_left = k.pressing := by
  induction l generalizing m with
  | nil =>
    cases hrun
    exact Or.inl hres
  | cons i rest ih =>
    simp only [run_left] at hrun
    cases hstep : update_left_hand_state store m i.grab_strength
        i.pinch_strength i.palm_y i.dot_product i.curr_hand i.now with
    | error e => rw [hstep] at hrun; cases hrun
    | ok m2 =>
      rw [hstep] at hrun
      dsimp only at hrun
      rcases ih m2 hrun with hh | ⟨l1, l2, m1, hsplit, hrun1, hp⟩
      · rcases update_left_holding store m i.grab_strength i.pinch_strength
            i.palm_y i.dot_product i.curr_hand i.now k m2 hstep hh with
          hp | hh2
        · exact Or.inr ⟨[], i :: rest, m, rfl, rfl, hp⟩
        · exact Or.inl hh2
      · refine Or.inr ⟨i :: l1, l2, m1, by rw [hsplit, List.cons_append], ?_, hp⟩
        simp only [run_left]
        rw [hstep]
        exact hrun1

/-- C5: with the configured `hold_threshold = 0.1 > 0`, neither hand's
machine ever reads a `*-holding` state without having been in the matching
`*-pressing` state on an earlier frame (for any frame sequence from any
start), and each promotion from pressing to holding happens only when the
frame time minus the recorded press time has reached `hold_threshold`. -/
theorem c5_no_holding_without_pressing :
    0 < hold_threshold ∧
    (∀ (m : MachineState) (l : List RightInput) (k : HoldKind),
      (run_right m l).hand_state_right = k.holding →
      m.hand_state_right = k.holding ∨
        ∃ l1 l2, l = l1 ++ l2 ∧
          (run_right m l1).hand_state_right = k.pressing) ∧
    (∀ (v : Vec3) (m : MachineState) (g p py d : ℚ) (h : Hand) (now : ℚ)
        (k : HoldKind),
      m.hand_state_right = k.pressing →
      (update_right_hand_state v m g p py d h now).hand_state_right =
        k.holding →
      hold_threshold ≤ now - m.hand_press_time_right) ∧
    (∀ (store : TemplateStore) (l : List LeftInput) (m : MachineState)
        (k : HoldKind) (mf : MachineState),
      run_left store m l = .ok mf →
      mf.hand_state_left = k.holding →
      m.hand_state_left = k.holding ∨
        ∃ l1 l2 m1, l = l1 ++ l2 ∧ run_left store m l1 = .ok m1 ∧
          m1.hand_state_left = k.pressing) ∧
    (∀ (store : TemplateStore) (m : MachineState) (g p py d : ℚ) (h : Hand)
        (now : ℚ) (k : HoldKind) (m2 : MachineState),
      m.hand_state_left = k.pressing →
      update_left_hand_state store m g p py d h now = .ok m2 →
      m2.hand_state_left = k.holding →
      hold_threshold ≤ now - m.hand_press_time_left) :=
  ⟨by norm_num [hold_threshold],
   fun m l k hres => run_right_holding l m k hres,
   fun v m g p py d h now k hpre hres =>
     update_right_promotion v m g p py d h now k hpre hres,
   fun store l m k mf hrun hres => run_left_holding store l m k mf hrun hres,
   fun store m g p py d h now k m2 hpre heq hres =>
     update_left_promotion store m g p py d h now k m2 hpre heq hres⟩

/-- A right hand pinching at strength 0.9 (above `pinch_threshold`), index
finger not extended. -/
def pinchHand : Hand := { testHandR with pinch_strength := 0.9 }

/-- One pinching right-hand frame at time `t`. -/
def rIn (t : ℚ) : RightInput := ⟨Vec3.zero, 0, 0.9, 0, -1, pinchHand, t⟩

/-- Witness for `c5_no_holding_without_pressing`: two pinch frames 0.2 s
apart promote the right hand from idle through pinch-pressing to
pinch-holding, and the trace clause yields the pressing prefix. -/
theorem c5_witness :
    (run_right mA [rIn 0, rIn (1 / 5)]).hand_state_right =
      HoldKind.pinch.holding ∧
    (mA.hand_state_right = HoldKind.pinch.holding ∨
      ∃ l1 l2, [rIn 0, rIn (1 / 5)] = l1 ++ l2 ∧
        (run_right mA l1).hand_state_right = HoldKind.pinch.pressing) :=
  have heval : (run_right mA [rIn 0, rIn (1 / 5)]).hand_state_right =
      HoldKind.pinch.holding := by
    norm_num [run_right, update_right_hand_state, update_right_core,
      thumb_overlay_right, check_thumb_gesture, classify_gesture,
      classify_thumb_direction, check_for_pinch_swipe, openPalm, mA, rIn,
      pinchHand, testHandR, testHandL, testDigit, canvas0, pinch_threshold,
      grab_threshold, hold_threshold, HoldKind.holding, magSq, Vec3.sub,
      state_string_pairs]
  ⟨heval, c5_no_holding_without_pressing.2.1 mA [rIn 0, rIn (1 / 5)]
    HoldKind.pinch heval⟩

/-! ## C4 — complex-gesture reset rules -/

theorem bufferAppend_getLast (b : List BufferEntry) (e : BufferEntry) :
    (bufferAppend b e).getLast? = some e := by
  unfold bufferAppend
  rw [List.drop_append_of_le_length (by simp), List.getLast?_concat]

theorem entryOfHands_foldl_right_none (hands : List Hand) :
    ∀ acc : Option Vec3 × Option Vec3,
    (∀ hh ∈ hands, hh.type_value = 0) → acc.2 = none →
    (hands.foldl
      (fun (acc : Option Vec3 × Option Vec3) h =>
        if h.type_value = 0 then (some h.palm_position, acc.2)
        else (acc.1, some h.palm_position)) acc).2 = none := by
  induction hands with
  | nil => intro acc _ h2; exact h2
  | cons a t ih =>
    intro acc hall h2
    simp only [List.foldl_cons]
    rw [if_pos (hall a (List.mem_cons_self a t))]
    exact ih _ (fun hh hm => hall hh (List.mem_cons_of_mem a hm)) h2

theorem entryOfHands_right_none (hands : List Hand) (now : ℚ)
    (hall : ∀ hh ∈ hands, hh.type_value = 0) :
    (entryOfHands hands now).right = none := by
  unfold entryOfHands
  exact entryOfHands_foldl_right_none hands (none, none) hall rfl

theorem distance_right_absent (b : List BufferEntry) (hands : List Hand)
    (now : ℚ) (hall : ∀ hh ∈ hands, hh.type_value = 0) :
    distance_between_hands_sq (bufferAppend b (entryOfHands hands now)) =
      none := by
  unfold distance_between_hands_sq
  rw [bufferAppend_getLast]
  dsimp only
  rw [entryOfHands_right_none hands now hall]
  cases (entryOfHands hands now).left <;> rfl

set_option maxHeartbeats 1600000 in
theorem complex_merge_reset (hands : List Hand) (f : FingerCrossStatus)
    (recognized : Option String) (dist : Option ℚ) (m1 : MachineState)
    (lg zm now : ℚ) (zb : Option ℚ) :
    (hands.all (fun h => h.type_value == 0) = true → dist = none →
      (complex_merge hands f recognized dist m1 lg zb zm now).machine.complex_state
        = "idle") ∧
    ((complex_merge hands f recognized dist m1 lg zb zm now).machine.complex_state
        ≠ "idle" →
      recognized.isSome = true ∨
      (((complex_merge hands f recognized dist m1 lg zb zm
            now).machine.hand_state_left = "grab-away-holding" ∨
        (complex_merge hands f recognized dist m1 lg zb zm
            now).machine.hand_state_left = "grab-towards-holding") ∧
       ((complex_merge hands f recognized dist m1 lg zb zm
            now).machine.hand_state_right = "grab-away-holding" ∨
        (complex_merge hands f recognized dist m1 lg zb zm
            now).machine.hand_state_right = "grab-towards-holding") ∧
       dist.isSome = true) ∨
      now - lg ≤ gesture_timeout) := by
  cases recognized <;> cases dist <;> cases zb <;>
    simp only [complex_merge] <;>
    split_ifs <;>
    constructor <;>
    intro h1 <;>
    (try intro h2) <;>
    simp_all <;>
    omega

theorem active_handler_ok_parts (store : TemplateStore)
    (s : ControllerState) (hands : List Hand) (now : ℚ)
    (recognized : Option String) (dist : Option ℚ) (s2 : ControllerState)
    (hok : active_handler store s hands now recognized dist = .ok s2) :
    ∃ f m1, check_finger_cross hands = .ok f ∧
      s2.machine = (complex_merge hands f recognized dist m1
        s.last_gesture_time s.zoom_baseline_distance s.zoom_multiplier
        now).machine ∧
      s2.zoom_baseline_distance = (complex_merge hands f recognized dist m1
        s.last_gesture_time s.zoom_baseline_distance s.zoom_multiplier
        now).zoom_baseline_distance ∧
      s2.zoom_multiplier = (complex_merge hands f recognized dist m1
        s.last_gesture_time s.zoom_baseline_distance s.zoom_multiplier
        now).zoom_multiplier := by
  unfold active_handler at hok
  cases hfold : List.foldl (process_hand store
      (calculate_velocity (bufferAppend s.data_buffer (entryOfHands hands now))
        HandSide.right) now) (Except.ok s.machine) hands with
  | error e => rw [hfold] at hok; cases hok
  | ok m0 =>
    rw [hfold] at hok
    cases hfc : check_finger_cross hands with
    | error e => rw [hfc] at hok; cases hok
    | ok f =>
      rw [hfc] at hok
      dsimp only at hok
      cases hok
      exact ⟨f, _, rfl, rfl, rfl, rfl⟩

/-- C4: for every frame processed in active mode (spec-modelled drawn-gesture
query, see `active_handler`): (1) if the frame contains no right hand
(every hand has `type.value = 0`), the resulting ComplexGestureState is
`idle`; (2) a non-`idle` resulting state requires a reaffirmation this
frame — a recognized drawn gesture, or the zoom detector's condition (both
hands grab-holding with an available inter-palm distance) — or the last
observed gesture to lie within `gesture_timeout = 0.3 s`. -/
theorem c4_complex_gesture_reset (store : TemplateStore)
    (s : ControllerState) (hands : List Hand) (now : ℚ)
    (recognized : Option String) (dist : Option ℚ) (s2 : ControllerState)
    (hok : active_handler store s hands now recognized dist = .ok s2)
    (hdist : distanceMatches dist (distance_between_hands_sq
      (bufferAppend s.data_buffer (entryOfHands hands now)))) :
    ((∀ hh ∈ hands, hh.type_value = 0) →
      s2.machine.complex_state = "idle") ∧
    (s2.machine.complex_state ≠ "idle" →
      recognized.isSome = true ∨
      ((s2.machine.hand_state_left = "grab-away-holding" ∨
        s2.machine.hand_state_left = "grab-towards-holding") ∧
       (s2.machine.hand_state_right = "grab-away-holding" ∨
        s2.machine.hand_state_right = "grab-towards-holding") ∧
       dist.isSome = true) ∨
      now - s.last_gesture_time ≤ gesture_timeout) := by
  obtain ⟨f, m1, hfc, hm, hzb, hzm⟩ :=
    active_handler_ok_parts store s hands now recognized dist s2 hok
  have hmr := complex_merge_reset hands f recognized dist m1
    s.last_gesture_time s.zoom_multiplier now s.zoom_baseline_distance
  constructor
  · intro hall
    have hnone := distance_right_absent s.data_buffer hands now hall
    have hd : dist = none := by
      rw [hnone] at hdist
      cases dist with
      | none => rfl
      | some d => exact absurd hdist (by simp [distanceMatches])
    have hall2 : hands.all (fun h => h.type_value == 0) = true := by
      rw [List.all_eq_true]
      intro x hx
      exact beq_iff_eq.mpr (hall x hx)
    rw [hm]
    exact hmr.1 hall2 hd
  · intro hne
    rw [hm] at hne
    rcases hmr.2 hne with h | h | h
    · exact Or.inl h
    · rw [hm]
      exact Or.inr (Or.inl h)
    · exact Or.inr (Or.inr h)

/-- Witness for `c4_complex_gesture_reset`: a frame with no hands at all
(in particular no right hand) from an idle controller completes and leaves
the complex state `idle`. -/
theorem c4_witness :
    active_handler [] ⟨mA, [], Vec3.zero, Vec3.zero, 0, none, 1⟩ [] 0 none
        none =
      .ok ⟨mA, [⟨0, none, none⟩], Vec3.zero, Vec3.zero, 0, none, 1⟩ ∧
    (⟨mA, [⟨0, none, none⟩], Vec3.zero, Vec3.zero, 0, none, 1⟩ :
      ControllerState).machine.complex_state = "idle" :=
  have hok : active_handler [] ⟨mA, [], Vec3.zero, Vec3.zero, 0, none, 1⟩ []
      0 none none =
      .ok ⟨mA, [⟨0, none, none⟩], Vec3.zero, Vec3.zero, 0, none, 1⟩ := by
    norm_num [active_handler, complex_merge, check_finger_cross,
      check_for_pinch_swipe, bufferAppend, entryOfHands, calculate_velocity,
      mA, canvas0, gesture_timeout, pinch_timeout, SWIPE_THRESHOLD,
      state_string_pairs, Vec3.zero]
  have hdist : distanceMatches none (distance_between_hands_sq
      (bufferAppend ([] : List BufferEntry) (entryOfHands [] 0))) := by
    rw [distance_right_absent [] [] 0 (fun hh h => absurd h (List.not_mem_nil hh))]
    exact trivial
  ⟨hok,
   (c4_complex_gesture_reset [] ⟨mA, [], Vec3.zero, Vec3.zero, 0, none, 1⟩
      [] 0 none none _ hok hdist).1
     (fun hh h => absurd h (List.not_mem_nil hh))⟩

/-! ## C3 — zoom baseline and multiplier -/

set_option maxHeartbeats 4000000 in
theorem complex_merge_zoom (hands : List Hand) (f : FingerCrossStatus)
    (recognized : Option String) (dist : Option ℚ) (m1 : MachineState)
    (lg zm now : ℚ) (zb : Option ℚ) (R : MergeResult)
    (hR : complex_merge hands f recognized dist m1 lg zb zm now = R) :
    ((R.machine.hand_state_left = "grab-away-holding" ∨
      R.machine.hand_state_left = "grab-towards-holding") →
     (R.machine.hand_state_right = "grab-away-holding" ∨
      R.machine.hand_state_right = "grab-towards-holding") →
     ∀ d, dist = some d →
       (zb = none →
         R.zoom_baseline_distance = some d ∧ R.zoom_multiplier = 1 ∧
         R.machine.complex_state = "zoom") ∧
       (∀ b, zb = some b → 1 / 10 ^ 6 < b →
         R.zoom_baseline_distance = some b ∧ R.zoom_multiplier = d / b ∧
         R.machine.complex_state = "zoom")) ∧
    (¬ ((R.machine.hand_state_left = "grab-away-holding" ∨
         R.machine.hand_state_left = "grab-towards-holding") ∧
        (R.machine.hand_state_right = "grab-away-holding" ∨
         R.machine.hand_state_right = "grab-towards-holding")) →
      R.zoom_baseline_distance = none ∧ R.zoom_multiplier = 1 ∧
      R.machine.complex_state ≠ "zoom") := by
  cases recognized <;> cases dist <;> cases zb <;>
    simp only [complex_merge] at hR <;>
    split_ifs at hR <;>
    subst hR <;>
    refine ⟨fun hL hRg d hd => ⟨fun hzb => ?_, fun b hzb hb => ?_⟩,
      fun hng => ?_⟩ <;>
    simp_all <;>
    linarith

/-- C3 (amended): on a frame after which both hands are in a grab-holding
state and the inter-palm distance is available: with no recorded baseline,
the baseline becomes the current distance, the multiplier exactly 1.0 and
the state `zoom`; with a recorded baseline `b`, the multiplier becomes
`distance / b` only PROVIDED `b > 1e-6` (the source's guard — below it the
stale multiplier is kept).  On a frame after which the hands are not both
grab-holding, the baseline is cleared, the multiplier reset to 1.0, and the
resulting state is never `zoom` — it is set to `idle` only when it still
read `zoom` at that point, while a different non-idle state set earlier in
the same frame is left in place. -/
theorem c3_zoom_lifecycle (store : TemplateStore) (s : ControllerState)
    (hands : List Hand) (now : ℚ) (recognized : Option String)
    (dist : Option ℚ) (s2 : ControllerState)
    (hok : active_handler store s hands now recognized dist = .ok s2) :
    ((s2.machine.hand_state_left = "grab-away-holding" ∨
      s2.machine.hand_state_left = "grab-towards-holding") →
     (s2.machine.hand_state_right = "grab-away-holding" ∨
      s2.machine.hand_state_right = "grab-towards-holding") →
     ∀ d, dist = some d →
       (s.zoom_baseline_distance = none →
         s2.zoom_baseline_distance = some d ∧ s2.zoom_multiplier = 1 ∧
         s2.machine.complex_state = "zoom") ∧
       (∀ b, s.zoom_baseline_distance = some b → 1 / 10 ^ 6 < b →
         s2.zoom_baseline_distance = some b ∧ s2.zoom_multiplier = d / b ∧
         s2.machine.complex_state = "zoom")) ∧
    (¬ ((s2.machine.hand_state_left = "grab-away-holding" ∨
         s2.machine.hand_state_left = "grab-towards-holding") ∧
        (s2.machine.hand_state_right = "grab-away-holding" ∨
         s2.machine.hand_state_right = "grab-towards-holding")) →
      s2.zoom_baseline_distance = none ∧ s2.zoom_multiplier = 1 ∧
      s2.machine.complex_state ≠ "zoom") := by
  obtain ⟨f, m1, hfc, hm, hzb, hzm⟩ :=
    active_handler_ok_parts store s hands now recognized dist s2 hok
  have hmz := complex_merge_zoom hands f recognized dist m1
    s.last_gesture_time s.zoom_multiplier now s.zoom_baseline_distance _ rfl
  rw [hm, hzb, hzm]
  exact hmz

/-- A machine state in which both hands hold a palm-away grab. -/
def mG : MachineState :=
  { mA with hand_state_left := "grab-away-holding",
            hand_state_right := "grab-away-holding" }

/-- A left hand held in a strong palm-away grab. -/
def grabHandL : Hand := { testHandL with grab_strength := 0.95 }

/-- A right hand held in a strong palm-away grab, palms `2e-7` apart and
index fingertips far apart (no finger overlap). -/
def grabHandR : Hand :=
  { testHandL with
      type_value := 1
      grab_strength := 0.95
      palm_position := ⟨2 / 10 ^ 7, 0, 0⟩
      index := { testDigit with proximal_next_joint := ⟨100, 0, 0⟩ } }

/-- The buffer entry recorded for the `grabHandL`/`grabHandR` frame. -/
def zoomEntry : BufferEntry := ⟨0, some ⟨0, 0, 0⟩, some ⟨2 / 10 ^ 7, 0, 0⟩⟩

/-- A both-hands-grab-holding controller state with no zoom baseline. -/
def sZoomPre : ControllerState := ⟨mG, [], Vec3.zero, Vec3.zero, 0, none, 1⟩

/-- The state after one zoom frame from `sZoomPre`. -/
def sZoomPost : ControllerState :=
  ⟨{ mG with complex_state := "zoom" }, [zoomEntry], Vec3.zero, Vec3.zero,
   0, some (2 / 10 ^ 7), 1⟩

/-- A both-hands-grab-holding controller state whose recorded zoom baseline
`1e-7` lies below the source's `1e-6` guard. -/
def sZoomPreC : ControllerState :=
  ⟨mG, [], Vec3.zero, Vec3.zero, 0, some (1 / 10 ^ 7), 1⟩

/-- The state after one frame from `sZoomPreC`: the multiplier is left at 1. -/
def sZoomPostC : ControllerState :=
  ⟨mG, [zoomEntry], Vec3.zero, Vec3.zero, 0, some (1 / 10 ^ 7), 1⟩

/-- Witness for `c3_zoom_lifecycle`: a first both-hands-grab-holding frame
with no recorded baseline sets the baseline to the current distance, the
multiplier to exactly 1, and the complex state to `zoom`. -/
theorem c3_witness :
    active_handler [] sZoomPre [grabHandL, grabHandR] 0 none
        (some (2 / 10 ^ 7)) = .ok sZoomPost ∧
    sZoomPre.zoom_baseline_distance = none ∧
    sZoomPost.zoom_baseline_distance = some (2 / 10 ^ 7) ∧
    sZoomPost.zoom_multiplier = 1 ∧
    sZoomPost.machine.complex_state = "zoom" := by
  have hok : active_handler [] sZoomPre [grabHandL, grabHandR] 0 none
      (some (2 / 10 ^ 7)) = .ok sZoomPost := by
    norm_num [active_handler, process_hand, update_left_hand_state,
      update_left_core, update_right_hand_state, update_right_core,
      thumb_overlay_left, thumb_overlay_right, check_thumb_gesture,
      classify_thumb_direction, classify_gesture, openPalm,
      check_for_pinch_swipe, check_finger_cross, complex_merge,
      calculate_velocity, velocitySums, bufferAppend, entryOfHands, dot3,
      magSq, Vec3.sub, Vec3.zero, grabHandL, grabHandR, mG, mA, canvas0,
      testHandL, testDigit, zoomEntry, sZoomPre, sZoomPost, pinch_threshold,
      grab_threshold, hold_threshold, pinch_timeout, gesture_timeout,
      SWIPE_THRESHOLD, state_string_pairs]
  have h1 := ((c3_zoom_lifecycle [] sZoomPre [grabHandL, grabHandR] 0 none
      (some (2 / 10 ^ 7)) sZoomPost hok).1 (Or.inl rfl) (Or.inl rfl)
      (2 / 10 ^ 7) rfl).1 rfl
  exact ⟨hok, rfl, h1.1, h1.2.1, h1.2.2⟩

/-- Counterexample to C3 as stated: both hands remain grab-holding, the
recorded baseline is `1e-7` and the measured distance `2e-7` (so the claim
demands multiplier `2e-7 / 1e-7 = 2`), but the source's `baseline > 1e-6`
guard fails and the multiplier stays at its stale value 1. -/
theorem c3_counterexample :
    sZoomPreC.zoom_baseline_distance = some (1 / 10 ^ 7) ∧
    distanceMatches (some (2 / 10 ^ 7)) (distance_between_hands_sq
      (bufferAppend sZoomPreC.data_buffer
        (entryOfHands [grabHandL, grabHandR] 0))) ∧
    active_handler [] sZoomPreC [grabHandL, grabHandR] 0 none
        (some (2 / 10 ^ 7)) = .ok sZoomPostC ∧
    sZoomPostC.machine.hand_state_left = "grab-away-holding" ∧
    sZoomPostC.machine.hand_state_right = "grab-away-holding" ∧
    sZoomPostC.zoom_multiplier = 1 ∧
    (2 / 10 ^ 7 : ℚ) / (1 / 10 ^ 7) = 2 ∧ (1 : ℚ) ≠ 2 := by
  refine ⟨rfl, ?_, ?_, rfl, rfl, rfl, by norm_num, by norm_num⟩
  · norm_num [distanceMatches, distance_between_hands_sq, bufferAppend,
      entryOfHands, magSq, Vec3.sub, sZoomPreC, grabHandL, grabHandR,
      testHandL]
  · norm_num [active_handler, process_hand, update_left_hand_state,
      update_left_core, update_right_hand_state, update_right_core,
      thumb_overlay_left, thumb_overlay_right, check_thumb_gesture,
      classify_thumb_direction, classify_gesture, openPalm,
      check_for_pinch_swipe, check_finger_cross, complex_merge,
      calculate_velocity, velocitySums, bufferAppend, entryOfHands, dot3,
      magSq, Vec3.sub, Vec3.zero, grabHandL, grabHandR, mG, mA, canvas0,
      testHandL, testDigit, zoomEntry, sZoomPreC, sZoomPostC,
      pinch_threshold, grab_threshold, hold_threshold, pinch_timeout,
      gesture_timeout, SWIPE_THRESHOLD, state_string_pairs]
